import Mathlib

/-!
Shallow embedding of the RABIES diagnosis/QC core
(`rabies/analysis_pkg/diagnosis_pkg/interfaces.py`) together with the
template-geometry check of `rabies/run_main.py`, and proofs of the
specification's claims about them.

Conventions of the embedding:
* numpy voxel vectors are `List Int` (the numeric content of the statistics is
  irrelevant to the claims; integer stand-ins keep everything decidable);
* a file system is an association of structured paths (`List String`, one
  component per directory level) to file contents (`String`); writing is
  overwrite-in-place, as with `DataFrame.to_csv` / `savefig`;
* Python exceptions are modelled with `Except String` / an `err : Option String`
  field carrying the message; once an exception is raised, no further statement
  of `_run_interface` executes;
* functions of this repository that are outside the provided sources
  (`diagnosis_functions.py`, `analysis_QC.py`, `preprocess_pkg/utils.py`,
  `preprocess_visual_QC.py`) are modelled from the spec and carry a
  `Modelled from the spec:` doc comment.
-/

namespace Rabies

/-! ## Generic list helpers -/

/-- Voxel-indexed numeric vector (one masked spatial map). -/
abbrev Vec := List Int

/-- Structured file path: one `String` per path component. -/
abbrev Path := List String

/-- Modelled from the spec: `flatten_list` from `rabies/preprocess_pkg/utils.py`
(not among the provided sources) concatenates the nested per-scan record lists
received from the workflow engine into a flat cohort list. -/
def flatten_list (l : List (List α)) : List α := l.flatten

/-- The three merged input lists are iterated together with Python `zip`,
which stops at the shortest list. -/
def zip3 (a : List α) (b : List β) (c : List γ) : List (α × β × γ) :=
  a.zip (b.zip c)

/-- Number of `true` entries of a boolean mask (the mask-defined voxel count). -/
def countTrue (mask : List Bool) : Nat := (mask.filter (fun b => b)).length

/-- Numpy boolean-mask indexing `array[volume_indices]`: keep the entries of
`xs` at the positions where the mask is `true`. -/
def maskSelect : List Bool → List Int → List Int
  | [], _ => []
  | _ :: _, [] => []
  | b :: bs, x :: xs => if b then x :: maskSelect bs xs else maskSelect bs xs

/-- Integer dot product, the stand-in numerator of the correlation statistics. -/
def dot (x y : Vec) : Int := (x.zip y).foldl (fun a p => a + p.1 * p.2) 0

/-- Sum of a list of integers. -/
def sumInt (l : List Int) : Int := l.foldl (fun a x => a + x) 0

/-- Effectful map over a list in the `Except` monad: Python's behaviour of a
loop whose body may raise, aborting at the first exception. -/
def exMapM (f : α → Except String β) : List α → Except String (List β)
  | [] => .ok []
  | x :: xs =>
    match f x with
    | .error e => .error e
    | .ok y =>
      match exMapM f xs with
      | .error e => .error e
      | .ok ys => .ok (y :: ys)

/-! ## Python error messages raised by the modelled code -/

/-- Message of the `ValueError` raised at `interfaces.py:193` for cohorts
smaller than 3. -/
def insufficientSampleMsg : String :=
  "Cannot run statistics on a sample size smaller than 3, so an empty figure is generated."

/-- Message of the `ValueError` numpy raises when `np.array` receives a ragged
(nested) sequence. -/
def inhomogeneousMsg : String :=
  "ValueError: setting an array element with a sequence (inhomogeneous shape)"

/-- Message of the `IndexError` numpy raises for `arr[:, i, :]` with `i` outside
axis 1. -/
def idxErrMsg : String := "IndexError: index is out of bounds for axis 1"

/-- Message of the `IndexError` numpy raises when a boolean index does not match
the shape of the indexed array. -/
def boolIdxErrMsg : String :=
  "IndexError: boolean index did not match indexed array"

/-- Message of the `NameError` raised at `interfaces.py:233` when the zipped
scan loop never executed and the leaked loop variable `spatial_info` is unbound. -/
def nameErrMsg : String := "NameError: name spatial_info is not defined"

/-- Message of the `ValueError` raised when spatial vectors of mismatched
lengths reach an array operation. -/
def shapeMismatchMsg : String :=
  "ValueError: operands could not be broadcast together"

/-! ## numpy array construction and slicing -/

/-- Length of the first row, numpy `shape[1]` of a rectangular 2-D-of-rows
stack (0 for an empty stack). -/
def headLen : List Vec → Nat
  | [] => 0
  | r :: _ => r.length

/-- numpy `shape[1]` of a rectangular 3-D stack (number of components per scan). -/
def shape1 : List (List Vec) → Nat
  | [] => 0
  | m :: _ => m.length

/-- `np.array` on a list of per-scan vectors: succeeds on a rectangular stack
and raises on ragged input. -/
def npStack2 (rows : List Vec) : Except String (List Vec) :=
  match rows with
  | [] => .ok []
  | r :: rs =>
    if rs.all (fun x => x.length == r.length) then .ok (r :: rs)
    else .error inhomogeneousMsg

/-- `np.array` on a list of per-scan component stacks: succeeds on a fully
rectangular 3-D stack and raises on ragged input. -/
def npStack3 (xs : List (List Vec)) : Except String (List (List Vec)) :=
  match xs with
  | [] => .ok []
  | m :: ms =>
    if (ms.all (fun m2 => m2.length == m.length)) &&
       ((m :: ms).all (fun m2 => m2.all (fun r => r.length == headLen m))) then
      .ok (m :: ms)
    else .error inhomogeneousMsg

/-- numpy slicing `arr[:, i, :]` of a 3-D stack: the i-th component map of every
scan; raises `IndexError` when `i` is outside axis 1. -/
def sliceMid (m : List (List Vec)) (i : Nat) : Except String (List Vec) :=
  if m.all (fun row => decide (i < row.length)) then
    .ok (m.map (fun row => row.getD i []))
  else .error idxErrMsg

/-! ## File-system model -/

/-- Overwrite-in-place write of one file into an association list. -/
def setFile (files : List (Path × String)) (p : Path) (c : String) :
    List (Path × String) :=
  (p, c) :: files.filter (fun w => !(w.1 == p))

/-- Apply a sequence of writes in order, each overwriting. -/
def applyWrites (files : List (Path × String)) (ws : List (Path × String)) :
    List (Path × String) :=
  ws.foldl (fun f w => setFile f w.1 w.2) files

/-- Content of the last write to `p` in a write sequence, if any. -/
def lastWrite (ws : List (Path × String)) (p : Path) : Option String :=
  match ws with
  | [] => none
  | w :: rest =>
    match lastWrite rest p with
    | some c => some c
    | none => if w.1 == p then some w.2 else none

/-- Look a file up in an association list (newest write first). -/
def lookupF (files : List (Path × String)) (p : Path) : Option String :=
  (files.find? (fun w => w.1 == p)).map (fun w => w.2)

/-- A file system: a set of existing directories and the stored files. -/
structure FS where
  dirs : List Path
  files : List (Path × String)
deriving DecidableEq

/-- Content of the file at `p`, if present. -/
def FS.lookup (fs : FS) (p : Path) : Option String := lookupF fs.files p

/-- Two file systems holding byte-identical content at every path. -/
def FS.sameFiles (a b : FS) : Prop := ∀ p : Path, a.lookup p = b.lookup p

/-- The empty file system. -/
def emptyFS : FS := { dirs := [], files := [] }

/-- Python `os.makedirs(path, exist_ok)`: with `exist_ok=False` an existing
directory raises `FileExistsError`; with `exist_ok=True` it never fails. -/
def makedirs (p : Path) (exist_ok : Bool) (dirs : List Path) :
    Except String (List Path) :=
  if p ∈ dirs && !exist_ok then .error "FileExistsError"
  else .ok (if p ∈ dirs then dirs else p :: dirs)

/-- Outcome of a partially executed `_run_interface`: the file writes performed
so far, in order, and the pending exception if one was raised. -/
structure RunOut where
  writes : List (Path × String)
  err : Option String
deriving DecidableEq

/-- Sequencing under exceptions: a later statement executes only when no
exception is pending. -/
def step (r : RunOut) (f : RunOut → RunOut) : RunOut :=
  if r.err.isSome then r else f r

/-! ## Data model of the diagnosis records (section 3 of the spec)

The spatial/temporal feature dictionaries produced by `ScanDiagnosis` and the
accompanying file dictionaries, restricted to the fields the Aggregator reads
(`interfaces.py:215-226,233`). -/

/-- Per-scan spatial feature record (`spatial_info` dictionary), with the masked
voxel vectors the Aggregator consumes. -/
structure SpatialInfo where
  temporal_std : Vec
  VE_spatial : Vec
  DR_BOLD : List Vec
  dual_ICA_maps : List Vec
  prior_maps : List Vec
deriving DecidableEq

/-- Confound-regression data dictionary; the Aggregator reads only `tDOF`
(`interfaces.py:220`). -/
structure CRDataDict where
  tDOF : Int
deriving DecidableEq

/-- Per-scan file dictionary, restricted to the field the Aggregator reads. -/
structure FileDict where
  CR_data_dict : CRDataDict
deriving DecidableEq

/-- Per-scan analysis dictionary: the seed-FC map images (full-grid voxel
content of each `seed_map` NIfTI file, `interfaces.py:223-225`). -/
structure AnalysisDict where
  seed_map_files : List Vec
deriving DecidableEq

/-- Mask bundle entries the Aggregator reads: the display template image and the
full-grid brain mask (`interfaces.py:199-202`). -/
structure MaskFileDict where
  template_file : Vec
  brain_mask : List Bool
deriving DecidableEq

/-- Inputs of `DatasetDiagnosis._run_interface` (`DatasetDiagnosisInputSpec`).
The three record lists arrive possibly nested from the workflow engine and are
flattened on entry. -/
structure DDInputs where
  spatial_info_list : List (List SpatialInfo)
  analysis_dict_list : List (List AnalysisDict)
  file_dict_list : List (List FileDict)
  mask_file_dict : MaskFileDict
  seed_prior_maps : List Vec
deriving DecidableEq

/-! ## Modelled collaborators from outside the provided sources -/

/-- Modelled from the spec: `otsu_scaling` from
`rabies/preprocess_pkg/preprocess_visual_QC.py` (not among the provided
sources) intensity-normalizes the anatomical template for display backgrounds.
Modelled as a deterministic shift of the image by its minimum intensity. -/
def otsu_scaling (template : Vec) : Vec :=
  template.map (fun x => x - template.foldl min 0)

/-- The Bool-valued voxel-length consistency check behind the stacking of the
spatial features consumed by the cross-correlation figure: every scan's
temporal-std, variance-explained, dual-regression and dual-ICA vectors have the
mask-defined voxel count `v`. -/
def coreVecsConsistent (v : Nat) (infos : List SpatialInfo) : Bool :=
  infos.all (fun s =>
    s.temporal_std.length == v && s.VE_spatial.length == v &&
    s.DR_BOLD.all (fun r => r.length == v) &&
    s.dual_ICA_maps.all (fun r => r.length == v))

/-- Path of a file inside the dataset-level output directory
(`os.path.abspath('dataset_diagnosis')`, `interfaces.py:196`). -/
def ddPath (name : String) : Path := ["dataset_diagnosis", name]

/-- The dataset-level output directory itself. -/
def outDirPath : Path := ["dataset_diagnosis"]

/-- Scratch path of the `tempfile.mkdtemp()` directory used by the seed-FC
branch (`interfaces.py:252,257`). -/
def tmpImgPath : Path := ["tmp_seed", "temp_img.nii.gz"]

/-- Deterministic serialized content of an image file. -/
def imgContent (img : Vec) : String := toString img

/-- Modelled from the spec: `spatial_crosscorrelations` from
`rabies/analysis_pkg/diagnosis_pkg/analysis_QC.py` (not among the provided
sources) stacks all scans' temporal-std, variance-explained, dual-regression and
dual-ICA maps into aligned scans-by-voxels arrays, computes their voxelwise
cross-correlations over the brain-mask voxels, and writes one figure; vectors of
inconsistent voxel length fail the stacking instead of being coerced. -/
def spatial_crosscorrelations (infos : List SpatialInfo) (scaled : Vec)
    (v : Nat) (fig_path : Path) : Except String (Path × String) :=
  if coreVecsConsistent v infos then
    .ok (fig_path,
      "crosscorr_fig " ++
        toString (sumInt (infos.map (fun s => sumInt s.temporal_std)) +
          sumInt scaled))
  else .error shapeMismatchMsg

/-- Cohort-level QC statistics row for one prior component: the stand-in
correlation of the cohort maps with the prior pattern plus the nuisance
covariate summaries (per-scan temporal-std, variance-explained, temporal
degrees of freedom). -/
structure QCStats where
  corr_to_prior : Int
  std_cov : Int
  VE_cov : Int
  tdof_cov : Int
deriving DecidableEq

/-- Serialization of one statistics row, mirroring
`pd.DataFrame(dataset_stats, index=[1]).to_csv(..., index=None)`: a header line
and one value row. -/
def csvOfStats (s : QCStats) : String :=
  "corr_to_prior,std_cov,VE_cov,tdof_cov\n" ++
    toString s.corr_to_prior ++ "," ++ toString s.std_cov ++ "," ++
    toString s.VE_cov ++ "," ++ toString s.tdof_cov

/-- Modelled from the spec: `analysis_QC` from
`rabies/analysis_pkg/diagnosis_pkg/analysis_QC.py` (not among the provided
sources) correlates the cohort's per-prior feature maps against the prior
spatial pattern, computes the QC statistics row with its nuisance covariates,
and writes one rendered figure at `fig_path`; vectors of mismatched voxel
length fail instead of being coerced. -/
def analysis_QC (FC_maps : List Vec) (prior : Vec) (std_maps VE_maps : List Vec)
    (tdof_list : List Int) (fig_path : Path) :
    Except String (QCStats × (Path × String)) :=
  if (FC_maps.all (fun r => r.length == prior.length)) &&
     (std_maps.all (fun r => r.length == prior.length)) &&
     (VE_maps.all (fun r => r.length == prior.length)) then
    let stats : QCStats :=
      { corr_to_prior := sumInt (FC_maps.map (fun r => dot r prior))
        std_cov := sumInt (std_maps.map (fun r => dot r prior))
        VE_cov := sumInt (VE_maps.map (fun r => dot r prior))
        tdof_cov := sumInt tdof_list }
    .ok (stats, (fig_path, "QC_fig " ++ csvOfStats stats))
  else .error shapeMismatchMsg

/-- Masked load of one seed-FC map image
(`np.asarray(nb.load(seed_map).dataobj)[volume_indices]`,
`interfaces.py:224-225`): boolean indexing raises when the image grid does not
match the mask grid. -/
def maskExtract (volume_indices : List Bool) (img : Vec) : Except String Vec :=
  if img.length == volume_indices.length then .ok (maskSelect volume_indices img)
  else .error boolIdxErrMsg

/-- Modelled from the spec: `sitk.Resample(img, mask)` (`interfaces.py:256`)
resamples an image onto the reference mask grid; the result always has the
grid size of the mask. -/
def resampleToGrid (n : Nat) (img : Vec) : Vec :=
  (List.range n).map (fun i => img.getD i 0)

/-- A seed prior resampled onto the mask grid and restricted to the brain-mask
voxels (`interfaces.py:256-259`). -/
def maskedResample (volume_indices : List Bool) (img : Vec) : Vec :=
  maskSelect volume_indices (resampleToGrid volume_indices.length img)

/-! ## The Aggregator pipeline (`DatasetDiagnosis._run_interface`) -/

/-- Figure file name of one prior component for one feature family
(`f'{out_dir}/{fam}{i}_QC_maps.png'`, `interfaces.py:237,244,266`). -/
def figPath (fam : String) (i : Nat) : Path :=
  ddPath (fam ++ toString i ++ "_QC_maps.png")

/-- Statistics table file name of one prior component for one feature family
(`f'{out_dir}/{fam}{i}_QC_stats.csv'`, `interfaces.py:239,246,268`). -/
def csvPath (fam : String) (i : Nat) : Path :=
  ddPath (fam ++ toString i ++ "_QC_stats.csv")

/-- The per-prior QC loop shared by the three feature families
(`interfaces.py:235-239`, `242-246`, `264-268`): for `i` in `idxs` (the run
passes `List.range num_priors`), slice the cohort stack at component `i`,
run `analysis_QC` (which writes the figure), and write the statistics CSV;
an exception aborts the remaining iterations. -/
def qcLoop (stacked : List (List Vec)) (priors : List Vec)
    (std_maps VE_maps : List Vec) (tdof_list : List Int) (fam : String) :
    List Nat → RunOut → RunOut
  | [], r => r
  | i :: rest, r =>
    if r.err.isSome then r
    else
      match sliceMid stacked i with
      | .error e => { r with err := some e }
      | .ok FC_maps =>
        match analysis_QC FC_maps (priors.getD i []) std_maps VE_maps tdof_list
            (figPath fam i) with
        | .error e => { r with err := some e }
        | .ok (stats, figw) =>
          qcLoop stacked priors std_maps VE_maps tdof_list fam rest
            { r with writes := r.writes ++ [figw, (csvPath fam i, csvOfStats stats)] }

/-- The seed-FC branch (`interfaces.py:250-268`): executed only when seed prior
maps are supplied; resamples each seed prior onto the mask grid (writing a
scratch image per prior), stacks the per-scan seed maps, and runs the per-prior
QC loop for the `seed_FC` family. -/
def seedStage (seed_prior_maps : List Vec) (volume_indices : List Bool)
    (seed_maps_list : List (List Vec)) (std_maps VE_maps : List Vec)
    (tdof_list : List Int) (r : RunOut) : RunOut :=
  if seed_prior_maps.length > 0 then
    step r (fun r0 =>
      let resampledPriors := seed_prior_maps.map (maskedResample volume_indices)
      let tmpWrites := seed_prior_maps.map (fun img =>
        (tmpImgPath, imgContent (resampleToGrid volume_indices.length img)))
      let r1 := { r0 with writes := r0.writes ++ tmpWrites }
      match npStack3 seed_maps_list with
      | .error e => { r1 with err := some e }
      | .ok sm =>
        qcLoop sm resampledPriors std_maps VE_maps tdof_list "seed_FC"
          (List.range seed_prior_maps.length) r1)
  else r

/-- The zipped cohort iterated by the scan loop (`interfaces.py:215`): Python
`zip` truncates to the shortest of the three flattened lists. -/
def zippedScans (inp : DDInputs) : List (SpatialInfo × AnalysisDict × FileDict) :=
  zip3 (flatten_list inp.spatial_info_list) (flatten_list inp.analysis_dict_list)
    (flatten_list inp.file_dict_list)

/-- Everything `DatasetDiagnosis._run_interface` does after the sample-size
check (`interfaces.py:196-273`), as a sequence of file writes and an optional
exception. Writes to the scratch directory of the seed branch are recorded
under `tmpImgPath`; directory creation is handled by `DatasetDiagnosis_runFS`. -/
def afterSizeCheck (inp : DDInputs) : RunOut :=
  let merged_spatial_info := flatten_list inp.spatial_info_list
  let volume_indices := inp.mask_file_dict.brain_mask
  let v := countTrue volume_indices
  let scaled := otsu_scaling inp.mask_file_dict.template_file
  match spatial_crosscorrelations merged_spatial_info scaled v
      (ddPath "spatial_crosscorrelations.png") with
  | .error e => { writes := [], err := some e }
  | .ok ccw =>
    let r0 : RunOut := { writes := [ccw], err := none }
    let zipped := zippedScans inp
    match exMapM (fun t => exMapM (maskExtract volume_indices) t.2.1.seed_map_files)
        zipped with
    | .error e => { r0 with err := some e }
    | .ok seed_maps_list =>
      let std_maps := zipped.map (fun t => t.1.temporal_std)
      let VE_maps := zipped.map (fun t => t.1.VE_spatial)
      let DR_maps_list := zipped.map (fun t => t.1.DR_BOLD)
      let dual_ICA_maps_list := zipped.map (fun t => t.1.dual_ICA_maps)
      let tdof_list := zipped.map (fun t => t.2.2.CR_data_dict.tDOF)
      match npStack2 std_maps with
      | .error e => { r0 with err := some e }
      | .ok stdS =>
        match npStack2 VE_maps with
        | .error e => { r0 with err := some e }
        | .ok VES =>
          match npStack3 DR_maps_list with
          | .error e => { r0 with err := some e }
          | .ok DRS =>
            match npStack3 dual_ICA_maps_list with
            | .error e => { r0 with err := some e }
            | .ok dualS =>
              match zipped.getLast? with
              | none => { r0 with err := some nameErrMsg }
              | some tlast =>
                let prior_maps := tlast.1.prior_maps
                let num_priors := prior_maps.length
                let r1 := qcLoop DRS prior_maps stdS VES tdof_list "DR"
                  (List.range num_priors) r0
                let r2 :=
                  if shape1 dualS > 0 then
                    qcLoop dualS prior_maps stdS VES tdof_list "dual_ICA"
                      (List.range num_priors) r1
                  else r1
                seedStage inp.seed_prior_maps volume_indices seed_maps_list
                  stdS VES tdof_list r2

/-- `DatasetDiagnosis._run_interface` as the ordered sequence of file writes it
performs and the exception it raises, if any (`interfaces.py:184-273`): the
sample-size validation (`:192-194`) precedes every side effect. -/
def DatasetDiagnosis_runWrites (inp : DDInputs) : RunOut :=
  if (flatten_list inp.spatial_info_list).length < 3 then
    { writes := [], err := some insufficientSampleMsg }
  else afterSizeCheck inp

/-- `DatasetDiagnosis._run_interface` acting on a file system: the sample-size
check runs first (no directory is created on its failure, `:192-197`); then the
output directory is created with `os.makedirs(..., exist_ok=True)` and the
writes are applied in order, each overwriting. A pending exception is returned
alongside the resulting file system (the workflow engine receives it). -/
def DatasetDiagnosis_runFS (inp : DDInputs) (fs : FS) : FS × Option String :=
  if (flatten_list inp.spatial_info_list).length < 3 then
    (fs, some insufficientSampleMsg)
  else
    match makedirs outDirPath true fs.dirs with
    | .error e => (fs, some e)
    | .ok ds =>
      let r := afterSizeCheck inp
      ({ dirs := ds, files := applyWrites fs.files r.writes }, r.err)

/-! ## The Mask Bundle Builder (`PrepMasks._run_interface`, `interfaces.py:35-71`) -/

/-- One per-subject mask file dictionary (the fields `PrepMasks` reads). -/
structure MaskDictIn where
  mask_file : String
  WM_mask_file : String
  CSF_mask_file : String
  preprocess_anat_template : String
deriving DecidableEq

/-- The process environment consulted for the hemisphere-atlas location
(`interfaces.py:50-53`). -/
structure Env where
  xdg_data_home : Option String
  home : String
deriving DecidableEq

/-- Inputs of `PrepMasks._run_interface` (`PrepMasksInputSpec`). -/
structure PMInputs where
  mask_dict_list : List (List MaskDictIn)
  prior_maps : String
  DSURQE_regions : Bool
  env : Env
deriving DecidableEq

/-- The atlas installation directory (`interfaces.py:50-53`):
`$XDG_DATA_HOME/rabies` when set, else `$HOME/.local/share/rabies`. -/
def rabiesPath (e : Env) : String :=
  match e.xdg_data_home with
  | some p => p ++ "/rabies"
  | none => e.home ++ "/.local/share/rabies"

/-- Modelled from the spec: `resample_mask` from
`rabies/analysis_pkg/diagnosis_pkg/diagnosis_functions.py` (not among the
provided sources) resamples a label mask onto the reference grid and returns
the path of the resampled file. -/
def resample_mask (mask ref : String) : String :=
  "resampled:" ++ mask ++ ":" ++ ref

/-- Modelled from the spec: `resample_IC_file` from
`rabies/analysis_pkg/analysis_functions.py` (not among the provided sources)
resamples the prior spatial-map stack onto the brain-mask grid and returns the
path of the resampled file. -/
def resample_IC_file (ic ref : String) : String :=
  "resampled_IC:" ++ ic ++ ":" ++ ref

/-- `PrepMasks._run_interface` (`interfaces.py:35-71`): only the first entry of
the flattened mask-dictionary list is used; the result is the fixed-key
`mask_file_dict` (`:67-68`), with the hemisphere entries filled from the DSURQE
atlas only when the region flag is set and left as empty strings otherwise
(`:49-60`). An empty input list raises `IndexError` at `merged[0]`. -/
def PrepMasks_run (inp : PMInputs) : Except String (List (String × String)) :=
  match flatten_list inp.mask_dict_list with
  | [] => .error "IndexError: list index out of range"
  | mask_dict :: _ =>
    let brain_mask_file := mask_dict.mask_file
    let template_file := "display_template.nii.gz"
    let hems :=
      if inp.DSURQE_regions then
        let rp := rabiesPath inp.env
        (resample_mask (rp ++ "/DSURQE_40micron_right_hem_mask.nii.gz") brain_mask_file,
         resample_mask (rp ++ "/DSURQE_40micron_left_hem_mask.nii.gz") brain_mask_file)
      else ("", "")
    let prior_maps := resample_IC_file inp.prior_maps brain_mask_file
    .ok [("template_file", template_file),
         ("brain_mask", brain_mask_file),
         ("WM_mask", mask_dict.WM_mask_file),
         ("CSF_mask", mask_dict.CSF_mask_file),
         ("edge_mask", "edge_mask.nii.gz"),
         ("right_hem_mask", hems.1),
         ("left_hem_mask", hems.2),
         ("prior_maps", prior_maps)]

/-- Dictionary lookup in the returned mask bundle. -/
def dictGet (d : List (String × String)) (k : String) : Option String :=
  (d.find? (fun kv => kv.1 == k)).map (fun kv => kv.2)

/-! ## Template-geometry check (`run_main.py:801-806`) -/

/-- Header geometry of a NIfTI/SimpleITK image: physical origin and direction
cosine matrix (integer-scaled coordinates suffice for the claims). -/
structure ImageHeader where
  origin : List Int
  direction : List Int
deriving DecidableEq

/-- `check_template_overlap` (`run_main.py:801-806`), transcribed with Python's
operator precedence: `if not a == b and c == d: raise` parses as
`(not (a == b)) and (c == d)`, so the guard raises exactly when the origins
differ while the directions agree. -/
def check_template_overlap (template mask : ImageHeader) : Except String Unit :=
  if (!(template.origin == mask.origin)) && (template.direction == mask.direction) then
    .error "The file does not appear to overlap with provided template."
  else .ok ()

/-! ## The Per-Scan Feature Extractor (`ScanDiagnosis._run_interface`,
`interfaces.py:119-147`), restricted to the features the claims address -/

/-- Modelled from the spec: the temporal feature "average component amplitude
for signal vs confound index groups" computed inside
`diagnosis_functions.process_data` (not among the provided sources): the
per-timepoint mean absolute component weight over the selected column indices
of the time-by-component weight matrix `W`. A component index outside the
matrix raises `IndexError`; an empty index list yields the defined no-data
sentinel (numpy's `NaN` from a mean over an empty axis, modelled as `none`)
for every timepoint instead of raising. -/
def component_amplitude (W : List (List Int)) (idx : List Nat) :
    Except String (List (Option ℚ)) :=
  if W.all (fun row => idx.all (fun j => decide (j < row.length))) then
    .ok (W.map (fun row =>
      if idx.isEmpty then none
      else some (((idx.map (fun j => ((row.getD j 0).natAbs : ℚ))).sum) / idx.length)))
  else .error "IndexError: index is out of bounds for axis 1 of W"

/-- Temporal feature record of one scan, restricted to the amplitude features
(the remaining features of `process_data` are not consumed by any claim). -/
structure TemporalInfo where
  signal_amplitude : List (Option ℚ)
  confound_amplitude : List (Option ℚ)
deriving DecidableEq

/-- Inputs of `ScanDiagnosis._run_interface` the modelled fragment reads: the
BOLD file name (for the output figure names) and the confound-regression
weight matrix with the two prior index groups. -/
structure SDInputs where
  bold_file : String
  W : List (List Int)
  prior_bold_idx : List Nat
  prior_confound_idx : List Nat
deriving DecidableEq

/-- File name stem of the scan: `pathlib.Path(bold_file).name.rsplit(".nii")[0]`
(`interfaces.py:135`). -/
def boldStem (bold_file : String) : String :=
  ((bold_file.splitOn "/").getLastD bold_file).splitOn ".nii" |>.headD bold_file

/-- `ScanDiagnosis._run_interface` restricted to the modelled features
(`interfaces.py:119-147`): compute the amplitude features from the prior index
groups, then write the two diagnosis figures named from the BOLD stem. -/
def ScanDiagnosis_run (inp : SDInputs) :
    Except String (TemporalInfo × List (Path × String)) :=
  match component_amplitude inp.W inp.prior_bold_idx with
  | .error e => .error e
  | .ok sa =>
    match component_amplitude inp.W inp.prior_confound_idx with
    | .error e => .error e
    | .ok ca =>
      let stem := boldStem inp.bold_file
      .ok ({ signal_amplitude := sa, confound_amplitude := ca },
        [([stem ++ "_temporal_diagnosis.png"], "temporal_fig " ++ toString sa ++ toString ca),
         ([stem ++ "_spatial_diagnosis.png"], "spatial_fig " ++ toString sa ++ toString ca)])

/-! ## Predicates used by the claim statements -/

/-- The voxel-index lengths of every per-scan spatial feature vector of the
flattened cohort (temporal-std, variance-explained, dual-regression rows,
dual-ICA rows and prior-map rows, as listed in the spec's SpatialInfo). -/
def allSpatialVecLens (inp : DDInputs) : List Nat :=
  (flatten_list inp.spatial_info_list).flatMap (fun s =>
    [s.temporal_std.length, s.VE_spatial.length] ++ s.DR_BOLD.map List.length ++
      s.dual_ICA_maps.map List.length ++ s.prior_maps.map List.length)

/-- All entries of the list are equal. -/
def allEqualLens (l : List Nat) : Bool :=
  match l with
  | [] => true
  | x :: xs => xs.all (fun y => y == x)

/-- The claim-C2 consistency hypothesis: every spatial vector of the flattened
cohort has the mask-defined voxel count. -/
def spatialConsistent (inp : DDInputs) : Bool :=
  (flatten_list inp.spatial_info_list).all (fun s =>
    let v := countTrue inp.mask_file_dict.brain_mask
    s.temporal_std.length == v && s.VE_spatial.length == v &&
    s.DR_BOLD.all (fun r => r.length == v) &&
    s.dual_ICA_maps.all (fun r => r.length == v) &&
    s.prior_maps.all (fun r => r.length == v))

/-- Run-state invariant of `DatasetDiagnosis._run_interface`: every file write
targets the dataset-level output directory or the seed-branch scratch
directory, and the pending exception, if any, is not the sample-size error
(which can only be raised by the validation that precedes all side effects). -/
def goodRun (r : RunOut) : Prop :=
  (∀ w ∈ r.writes,
    w.1.head? = some "dataset_diagnosis" ∨ w.1.head? = some "tmp_seed") ∧
  r.err ≠ some insufficientSampleMsg

/-- The output file sequence of a successful Aggregator run with `N` prior
components, `C` dual-ICA components per scan and `S` seed priors: the
cross-correlation figure, then one figure and one statistics CSV per prior
index for the DR family, for the dual-ICA family exactly when `C > 0`, and for
the seed-FC family (preceded by the scratch resampling writes) exactly when
`S > 0` — each family in strict index order. -/
def expectedQCPaths (N C S : Nat) : List Path :=
  [ddPath "spatial_crosscorrelations.png"] ++
    ((List.range N).map (fun i => [figPath "DR" i, csvPath "DR" i])).flatten ++
    (if 0 < C then
      ((List.range N).map (fun i => [figPath "dual_ICA" i, csvPath "dual_ICA" i])).flatten
     else []) ++
    (if 0 < S then
      (List.replicate S tmpImgPath) ++
        ((List.range S).map (fun i => [figPath "seed_FC" i, csvPath "seed_FC" i])).flatten
     else [])

/-! ## Concrete example inputs for witnesses and counterexamples -/

/-- A well-formed scan record on a one-voxel mask: one dual-regression
component matching one prior component, no dual-ICA components. -/
def exScanA : SpatialInfo :=
  { temporal_std := [1], VE_spatial := [1], DR_BOLD := [[2]],
    dual_ICA_maps := [], prior_maps := [[3]] }

/-- The matching mask bundle: a one-voxel brain mask. -/
def exMask : MaskFileDict := { template_file := [7], brain_mask := [true] }

/-- An analysis dictionary without seed maps. -/
def exAn : AnalysisDict := { seed_map_files := [] }

/-- A file dictionary with five temporal degrees of freedom. -/
def exFd : FileDict := { CR_data_dict := { tDOF := 5 } }

/-- A two-scan cohort (below the sample-size threshold). -/
def ex1 : DDInputs :=
  { spatial_info_list := [[exScanA], [exScanA]]
    analysis_dict_list := [[exAn], [exAn]]
    file_dict_list := [[exFd], [exFd]]
    mask_file_dict := exMask
    seed_prior_maps := [] }

/-- A three-scan cohort whose scans carry one dual-regression component but two
prior-map rows (all vectors of the mask voxel length): voxel-length consistent,
yet component counts mismatch the prior count. -/
def ex2 : DDInputs :=
  { spatial_info_list :=
      [[{ temporal_std := [1], VE_spatial := [1], DR_BOLD := [[2]],
          dual_ICA_maps := [], prior_maps := [[3], [4]] }],
       [{ temporal_std := [1], VE_spatial := [1], DR_BOLD := [[2]],
          dual_ICA_maps := [], prior_maps := [[3], [4]] }],
       [{ temporal_std := [1], VE_spatial := [1], DR_BOLD := [[2]],
          dual_ICA_maps := [], prior_maps := [[3], [4]] }]]
    analysis_dict_list := [[exAn], [exAn], [exAn]]
    file_dict_list := [[exFd], [exFd], [exFd]]
    mask_file_dict := exMask
    seed_prior_maps := [] }

/-- A three-scan cohort in which the first scan's prior-map row has voxel
length 2 while every other spatial vector (and the mask) has voxel length 1. -/
def ex3 : DDInputs :=
  { spatial_info_list :=
      [[{ temporal_std := [1], VE_spatial := [1], DR_BOLD := [[2]],
          dual_ICA_maps := [], prior_maps := [[5, 6]] }],
       [exScanA], [exScanA]]
    analysis_dict_list := [[exAn], [exAn], [exAn]]
    file_dict_list := [[exFd], [exFd], [exFd]]
    mask_file_dict := exMask
    seed_prior_maps := [] }

/-- A well-formed three-scan cohort on which the Aggregator succeeds. -/
def exOK : DDInputs :=
  { spatial_info_list := [[exScanA], [exScanA], [exScanA]]
    analysis_dict_list := [[exAn], [exAn], [exAn]]
    file_dict_list := [[exFd], [exFd], [exFd]]
    mask_file_dict := exMask
    seed_prior_maps := [] }

/-- Same cohort as `ex2` under a different name, used to exhibit the
partial-failure behaviour: the DR loop fails at index 1 after the index-0
outputs were written. -/
def ex6 : DDInputs :=
  { spatial_info_list :=
      [[{ temporal_std := [1], VE_spatial := [1], DR_BOLD := [[2]],
          dual_ICA_maps := [], prior_maps := [[3], [4]] }],
       [{ temporal_std := [1], VE_spatial := [1], DR_BOLD := [[2]],
          dual_ICA_maps := [], prior_maps := [[3], [4]] }],
       [{ temporal_std := [1], VE_spatial := [1], DR_BOLD := [[2]],
          dual_ICA_maps := [], prior_maps := [[3], [4]] }]]
    analysis_dict_list := [[exAn], [exAn], [exAn]]
    file_dict_list := [[exFd], [exFd], [exFd]]
    mask_file_dict := exMask
    seed_prior_maps := [] }

/-- A cohort whose three flattened input lists have mismatched lengths: three
spatial records but only two file dictionaries. -/
def ex10 : DDInputs :=
  { spatial_info_list := [[exScanA], [exScanA], [exScanA]]
    analysis_dict_list := [[exAn], [exAn], [exAn]]
    file_dict_list := [[exFd], [exFd]]
    mask_file_dict := exMask
    seed_prior_maps := [] }

/-- A three-scan cohort whose temporal-std vectors have voxel length 2 on a
one-voxel mask (voxel-length inconsistent in a consumed feature family). -/
def exW3 : DDInputs :=
  { spatial_info_list :=
      [[{ temporal_std := [1, 1], VE_spatial := [1], DR_BOLD := [[2]],
          dual_ICA_maps := [], prior_maps := [[3]] }],
       [exScanA], [exScanA]]
    analysis_dict_list := [[exAn], [exAn], [exAn]]
    file_dict_list := [[exFd], [exFd], [exFd]]
    mask_file_dict := exMask
    seed_prior_maps := [] }

/-- A pre-populated file system holding one per-scan output of the Feature
Extractor. -/
def exFS6 : FS :=
  { dirs := [], files := [(["scan1_temporal_diagnosis.png"], "per-scan figure")] }

/-- Template header of the geometry-check failing input. -/
def ex8_template : ImageHeader :=
  { origin := [0, 0, 0], direction := [1, 0, 0, 0, 1, 0, 0, 0, 1] }

/-- Mask header sharing the template's origin but not its direction matrix. -/
def ex8_mask : ImageHeader :=
  { origin := [0, 0, 0], direction := [0, 1, 0, 1, 0, 0, 0, 0, 1] }

/-- A scan with a two-component weight matrix, one signal component and no
confound components. -/
def exW7 : SDInputs :=
  { bold_file := "sub-1_bold.nii.gz", W := [[1, -2], [3, 4]],
    prior_bold_idx := [0], prior_confound_idx := [] }

/-- One subject's mask file dictionary. -/
def exW9dict : MaskDictIn :=
  { mask_file := "m.nii.gz", WM_mask_file := "w.nii.gz",
    CSF_mask_file := "c.nii.gz", preprocess_anat_template := "t.nii.gz" }

/-- A single-subject mask-dictionary input with the region-atlas flag unset. -/
def exW9 : PMInputs :=
  { mask_dict_list := [[exW9dict]]
    prior_maps := "p.nii.gz"
    DSURQE_regions := false
    env := { xdg_data_home := none, home := "/home/u" } }

/-- The mask bundle `PrepMasks` returns on `exW9`. -/
def exW9out : List (String × String) :=
  [("template_file", "display_template.nii.gz"),
   ("brain_mask", "m.nii.gz"),
   ("WM_mask", "w.nii.gz"),
   ("CSF_mask", "c.nii.gz"),
   ("edge_mask", "edge_mask.nii.gz"),
   ("right_hem_mask", ""),
   ("left_hem_mask", ""),
   ("prior_maps", "resampled_IC:p.nii.gz:m.nii.gz")]

/-! ## File-system lemmas -/

theorem find_filter_ne (F : List (Path × String)) (p q : Path) (h : q ≠ p) :
    (F.filter (fun w => !(w.1 == p))).find? (fun w => w.1 == q) =
      F.find? (fun w => w.1 == q) := by
  induction F with
  | nil => rfl
  | cons w ws ih =>
    simp only [List.filter_cons, List.find?_cons]
    by_cases hp : w.1 = p
    · have hbp : (w.1 == p) = true := beq_iff_eq.mpr hp
      have hbq : (w.1 == q) = false := by
        refine beq_eq_false_iff_ne.mpr ?_
        rw [hp]
        exact fun hc => h hc.symm
      simp [hbp, hbq, ih]
    · have hbp : (w.1 == p) = false := beq_eq_false_iff_ne.mpr hp
      by_cases hq : w.1 = q
      · have hbq : (w.1 == q) = true := beq_iff_eq.mpr hq
        simp [hbp, hbq, List.find?_cons]
      · have hbq : (w.1 == q) = false := beq_eq_false_iff_ne.mpr hq
        simp [hbp, hbq, List.find?_cons, ih]

theorem lookupF_setFile (F : List (Path × String)) (p q : Path) (c : String) :
    lookupF (setFile F p c) q = if q = p then some c else lookupF F q := by
  by_cases h : q = p
  · subst h
    simp [lookupF, setFile, List.find?_cons]
  · have hp : (p == q) = false :=
      beq_eq_false_iff_ne.mpr (fun hc => h hc.symm)
    simp only [lookupF, setFile, List.find?_cons, hp, if_neg h, cond_false]
    rw [find_filter_ne F p q h]

theorem lookupF_applyWrites (F : List (Path × String)) (ws : List (Path × String))
    (p : Path) :
    lookupF (applyWrites F ws) p =
      match lastWrite ws p with
      | some c => some c
      | none => lookupF F p := by
  induction ws generalizing F with
  | nil => rfl
  | cons w rest ih =>
    show lookupF (applyWrites (setFile F w.1 w.2) rest) p = _
    rw [ih]
    cases hrest : lastWrite rest p with
    | some c => simp [lastWrite, hrest]
    | none =>
      rw [lookupF_setFile]
      have hcons : lastWrite (w :: rest) p =
          if w.1 == p then some w.2 else none := by
        simp [lastWrite, hrest]
      rw [hcons]
      by_cases hw : p = w.1
      · have hbw : (w.1 == p) = true := beq_iff_eq.mpr hw.symm
        simp [hbw, hw]
      · have hbw : (w.1 == p) = false :=
          beq_eq_false_iff_ne.mpr (fun hc => hw hc.symm)
        simp [hbw, hw]

theorem lastWrite_none (ws : List (Path × String)) (p : Path)
    (h : ∀ w ∈ ws, w.1 ≠ p) : lastWrite ws p = none := by
  induction ws with
  | nil => rfl
  | cons w rest ih =>
    have hw : (w.1 == p) = false := by
      simp
      exact h w (by simp)
    simp [lastWrite, ih (fun x hx => h x (by simp [hx])), hw]

theorem runFS_eq (inp : DDInputs) (fs : FS)
    (h3 : ¬ (flatten_list inp.spatial_info_list).length < 3) :
    DatasetDiagnosis_runFS inp fs =
      ({ dirs := if outDirPath ∈ fs.dirs then fs.dirs else outDirPath :: fs.dirs,
         files := applyWrites fs.files (afterSizeCheck inp).writes },
       (afterSizeCheck inp).err) := by
  unfold DatasetDiagnosis_runFS makedirs
  simp [h3]

/-! ## Claim C4: re-running on identical inputs overwrites deterministically -/

/-- C4: running the Aggregator a second time on identical inputs over the file
system produced by a first successful run succeeds again — the pre-existing
`dataset_diagnosis` directory is tolerated by `os.makedirs(..., exist_ok=True)`
(`interfaces.py:197`) — and leaves every file, in particular every QC
statistics CSV, byte-identical to the first run's output: the writes are a
deterministic function of the inputs alone and each write overwrites in
place. -/
theorem C4_idempotent_rerun (inp : DDInputs) (fs : FS)
    (h : (DatasetDiagnosis_runFS inp fs).2 = none) :
    (DatasetDiagnosis_runFS inp (DatasetDiagnosis_runFS inp fs).1).2 = none ∧
    FS.sameFiles ((DatasetDiagnosis_runFS inp (DatasetDiagnosis_runFS inp fs).1).1)
      ((DatasetDiagnosis_runFS inp fs).1) := by
  by_cases hlt : (flatten_list inp.spatial_info_list).length < 3
  · exfalso
    unfold DatasetDiagnosis_runFS at h
    rw [if_pos hlt] at h
    exact absurd h (by simp)
  · rw [runFS_eq inp fs hlt] at h ⊢
    rw [runFS_eq inp _ hlt]
    refine ⟨h, ?_⟩
    intro p
    show lookupF (applyWrites (applyWrites fs.files (afterSizeCheck inp).writes)
      (afterSizeCheck inp).writes) p = lookupF (applyWrites fs.files (afterSizeCheck inp).writes) p
    rw [lookupF_applyWrites, lookupF_applyWrites]
    cases lastWrite (afterSizeCheck inp).writes p with
    | some c => rfl
    | none => rfl

theorem C4_witness :
    (DatasetDiagnosis_runFS exOK emptyFS).2 = none ∧
    ((DatasetDiagnosis_runFS exOK (DatasetDiagnosis_runFS exOK emptyFS).1).2 = none ∧
    FS.sameFiles ((DatasetDiagnosis_runFS exOK (DatasetDiagnosis_runFS exOK emptyFS).1).1)
      ((DatasetDiagnosis_runFS exOK emptyFS).1)) :=
  ⟨by decide, C4_idempotent_rerun exOK emptyFS (by decide)⟩

/-! ## Error-classification lemmas for the pipeline stages -/

theorem exMapM_error_exists (f : α → Except String β) (l : List α) (e : String)
    (h : exMapM f l = .error e) : ∃ x ∈ l, f x = .error e := by
  induction l with
  | nil => simp [exMapM] at h
  | cons x xs ih =>
    unfold exMapM at h
    cases hfx : f x with
    | error e2 =>
      rw [hfx] at h
      injection h with h2
      exact ⟨x, by simp, by rw [hfx, h2]⟩
    | ok y =>
      rw [hfx] at h
      cases hrest : exMapM f xs with
      | error e2 =>
        rw [hrest] at h
        injection h with h2
        obtain ⟨z, hz, hfz⟩ := ih (by rw [hrest, h2])
        exact ⟨z, by simp [hz], hfz⟩
      | ok ys =>
        rw [hrest] at h
        exact absurd h (by simp)

theorem maskExtract_error (vi : List Bool) (img : Vec) (e : String)
    (h : maskExtract vi img = .error e) : e = boolIdxErrMsg := by
  unfold maskExtract at h
  split at h
  · exact absurd h (by simp)
  · injection h with h2
    exact h2.symm

theorem sliceMid_error (m : List (List Vec)) (i : Nat) (e : String)
    (h : sliceMid m i = .error e) : e = idxErrMsg := by
  unfold sliceMid at h
  split at h
  · exact absurd h (by simp)
  · injection h with h2
    exact h2.symm

theorem npStack2_error (rows : List Vec) (e : String)
    (h : npStack2 rows = .error e) : e = inhomogeneousMsg := by
  unfold npStack2 at h
  split at h
  · exact absurd h (by simp)
  · split at h
    · exact absurd h (by simp)
    · injection h with h2
      exact h2.symm

theorem npStack3_error (xs : List (List Vec)) (e : String)
    (h : npStack3 xs = .error e) : e = inhomogeneousMsg := by
  unfold npStack3 at h
  split at h
  · exact absurd h (by simp)
  · split at h
    · exact absurd h (by simp)
    · injection h with h2
      exact h2.symm

theorem analysis_QC_error (FC_maps : List Vec) (prior : Vec)
    (std_maps VE_maps : List Vec) (tdof_list : List Int) (figp : Path)
    (e : String) (h : analysis_QC FC_maps prior std_maps VE_maps tdof_list figp = .error e) :
    e = shapeMismatchMsg := by
  unfold analysis_QC at h
  split at h
  · exact absurd h (by simp)
  · injection h with h2
    exact h2.symm

theorem analysis_QC_fig (FC_maps : List Vec) (prior : Vec)
    (std_maps VE_maps : List Vec) (tdof_list : List Int) (figp : Path)
    (s : QCStats) (w : Path × String)
    (h : analysis_QC FC_maps prior std_maps VE_maps tdof_list figp = .ok (s, w)) :
    w.1 = figp := by
  unfold analysis_QC at h
  split at h
  · injection h with h2
    injection h2 with hs hw
    rw [← hw]
  · exact absurd h (by simp)

theorem crosscorr_error (infos : List SpatialInfo) (scaled : Vec) (v : Nat)
    (figp : Path) (e : String)
    (h : spatial_crosscorrelations infos scaled v figp = .error e) :
    e = shapeMismatchMsg := by
  unfold spatial_crosscorrelations at h
  split at h
  · exact absurd h (by simp)
  · injection h with h2
    exact h2.symm

theorem crosscorr_fig (infos : List SpatialInfo) (scaled : Vec) (v : Nat)
    (figp : Path) (w : Path × String)
    (h : spatial_crosscorrelations infos scaled v figp = .ok w) :
    w.1 = figp := by
  unfold spatial_crosscorrelations at h
  split at h
  · injection h with h2
    rw [← h2]
  · exact absurd h (by simp)

/-! ## The run-state invariant is preserved by the pipeline -/

theorem goodRun_qcLoop (stacked : List (List Vec)) (priors : List Vec)
    (std_maps VE_maps : List Vec) (tdof_list : List Int) (fam : String) :
    ∀ (idxs : List Nat) (r : RunOut), goodRun r →
      goodRun (qcLoop stacked priors std_maps VE_maps tdof_list fam idxs r) := by
  intro idxs
  induction idxs with
  | nil => intro r hr; exact hr
  | cons i rest ih =>
    intro r hr
    show goodRun (qcLoop stacked priors std_maps VE_maps tdof_list fam (i :: rest) r)
    unfold qcLoop
    by_cases he : r.err.isSome = true
    · rw [if_pos he]
      exact hr
    · rw [if_neg he]
      cases hsl : sliceMid stacked i with
      | error e =>
        refine ⟨hr.1, ?_⟩
        rw [sliceMid_error stacked i e hsl]
        intro hc
        injection hc with hc2
        exact absurd hc2 (by decide)
      | ok FC =>
        dsimp only
        cases hqc : analysis_QC FC (priors.getD i []) std_maps VE_maps tdof_list
            (figPath fam i) with
        | error e =>
          dsimp only
          refine ⟨hr.1, ?_⟩
          rw [analysis_QC_error _ _ _ _ _ _ e hqc]
          intro hc
          injection hc with hc2
          exact absurd hc2 (by decide)
        | ok sw =>
          obtain ⟨stats, figw⟩ := sw
          dsimp only
          apply ih
          refine ⟨?_, hr.2⟩
          intro w hw
          rw [List.mem_append] at hw
          cases hw with
          | inl hw => exact hr.1 w hw
          | inr hw =>
            have hfw : figw.1 = figPath fam i :=
              analysis_QC_fig _ _ _ _ _ _ _ _ hqc
            rcases List.mem_pair.mp hw with hw2 | hw2
            · left
              rw [hw2, hfw]
              rfl
            · left
              rw [hw2]
              rfl

theorem goodRun_seedStage (spm : List Vec) (vi : List Bool)
    (sml : List (List Vec)) (std_maps VE_maps : List Vec) (tdof_list : List Int)
    (r : RunOut) (hr : goodRun r) :
    goodRun (seedStage spm vi sml std_maps VE_maps tdof_list r) := by
  unfold seedStage
  by_cases hs : spm.length > 0
  · rw [if_pos hs]
    unfold step
    by_cases he : r.err.isSome = true
    · rw [if_pos he]
      exact hr
    · rw [if_neg he]
      dsimp only
      have hr1 : goodRun { r with writes := r.writes ++ spm.map (fun img =>
          (tmpImgPath, imgContent (resampleToGrid vi.length img))) } := by
        refine ⟨?_, hr.2⟩
        intro w hw
        rw [List.mem_append] at hw
        cases hw with
        | inl hw => exact hr.1 w hw
        | inr hw =>
          right
          obtain ⟨img, _, himg⟩ := List.mem_map.mp hw
          rw [← himg]
          rfl
      cases hst : npStack3 sml with
      | error e =>
        refine ⟨hr1.1, ?_⟩
        rw [npStack3_error sml e hst]
        intro hc
        injection hc with hc2
        exact absurd hc2 (by decide)
      | ok sm =>
        exact goodRun_qcLoop _ _ _ _ _ _ _ _ hr1
  · rw [if_neg hs]
    exact hr

theorem goodRun_afterSizeCheck (inp : DDInputs) : goodRun (afterSizeCheck inp) := by
  unfold afterSizeCheck
  dsimp only
  cases hcc : spatial_crosscorrelations (flatten_list inp.spatial_info_list)
      (otsu_scaling inp.mask_file_dict.template_file)
      (countTrue inp.mask_file_dict.brain_mask)
      (ddPath "spatial_crosscorrelations.png") with
  | error e =>
    dsimp only
    refine ⟨by simp, ?_⟩
    rw [crosscorr_error _ _ _ _ e hcc]
    intro hc
    injection hc with hc2
    exact absurd hc2 (by decide)
  | ok ccw =>
    dsimp only
    have hccw : ccw.1 = ddPath "spatial_crosscorrelations.png" :=
      crosscorr_fig _ _ _ _ _ hcc
    have hr0 : goodRun { writes := [ccw], err := none } := by
      refine ⟨?_, by simp⟩
      intro w hw
      rw [List.mem_singleton] at hw
      left
      rw [hw, hccw]
      rfl
    cases hsl : exMapM (fun t => exMapM (maskExtract inp.mask_file_dict.brain_mask)
        t.2.1.seed_map_files) (zippedScans inp) with
    | error e =>
      dsimp only
      refine ⟨hr0.1, ?_⟩
      obtain ⟨t, _, ht⟩ := exMapM_error_exists _ _ _ hsl
      obtain ⟨img, _, himg⟩ := exMapM_error_exists _ _ _ ht
      rw [maskExtract_error _ _ _ himg]
      intro hc
      injection hc with hc2
      exact absurd hc2 (by decide)
    | ok seed_maps_list =>
      dsimp only
      cases hstd : npStack2 ((zippedScans inp).map (fun t => t.1.temporal_std)) with
      | error e =>
        dsimp only
        refine ⟨hr0.1, ?_⟩
        rw [npStack2_error _ e hstd]
        intro hc
        injection hc with hc2
        exact absurd hc2 (by decide)
      | ok stdS =>
        dsimp only
        cases hVE : npStack2 ((zippedScans inp).map (fun t => t.1.VE_spatial)) with
        | error e =>
          dsimp only
          refine ⟨hr0.1, ?_⟩
          rw [npStack2_error _ e hVE]
          intro hc
          injection hc with hc2
          exact absurd hc2 (by decide)
        | ok VES =>
          dsimp only
          cases hDR : npStack3 ((zippedScans inp).map (fun t => t.1.DR_BOLD)) with
          | error e =>
            dsimp only
            refine ⟨hr0.1, ?_⟩
            rw [npStack3_error _ e hDR]
            intro hc
            injection hc with hc2
            exact absurd hc2 (by decide)
          | ok DRS =>
            dsimp only
            cases hdual : npStack3 ((zippedScans inp).map (fun t => t.1.dual_ICA_maps)) with
            | error e =>
              dsimp only
              refine ⟨hr0.1, ?_⟩
              rw [npStack3_error _ e hdual]
              intro hc
              injection hc with hc2
              exact absurd hc2 (by decide)
            | ok dualS =>
              dsimp only
              cases hlast : (zippedScans inp).getLast? with
              | none =>
                dsimp only
                refine ⟨hr0.1, ?_⟩
                intro hc
                injection hc with hc2
                exact absurd hc2 (by decide)
              | some tlast =>
                dsimp only
                apply goodRun_seedStage
                have h1 : goodRun (qcLoop DRS tlast.1.prior_maps stdS VES
                    ((zippedScans inp).map (fun t => t.2.2.CR_data_dict.tDOF)) "DR"
                    (List.range tlast.1.prior_maps.length)
                    { writes := [ccw], err := none }) :=
                  goodRun_qcLoop _ _ _ _ _ _ _ _ hr0
                by_cases hsh : shape1 dualS > 0
                · rw [if_pos hsh]
                  exact goodRun_qcLoop _ _ _ _ _ _ _ _ h1
                · rw [if_neg hsh]
                  exact h1

/-! ## Claim C6: partial failure leaves already-written family outputs behind -/

/-- C6 counterexample: on the `ex6` cohort (three scans, one dual-regression
component each, two prior-map rows, all vectors voxel-length consistent) the
Aggregator fails inside the DR family loop — `DR_maps_list[:, 1, :]` raises
`IndexError` at prior index 1 — yet the `dataset_diagnosis` output directory
already holds the DR-family outputs of prior index 0, contradicting the claim
that a failed call leaves no outputs for the feature family that failed. -/
theorem C6_counterexample :
    (DatasetDiagnosis_runFS ex6 emptyFS).2 = some idxErrMsg ∧
    ((DatasetDiagnosis_runFS ex6 emptyFS).1).lookup (figPath "DR" 0) ≠ none ∧
    ((DatasetDiagnosis_runFS ex6 emptyFS).1).lookup (csvPath "DR" 0) ≠ none := by
  refine ⟨by decide, by decide, by decide⟩

/-- C6 amended: a failed Aggregator call may leave behind the per-prior outputs
of the failed feature family that were written before the failing index (the
per-index writes happen inside the loop), but all of its writes stay inside
the `dataset_diagnosis` output directory and the seed-branch scratch
directory: any pre-existing file elsewhere — in particular every per-scan
output of the Feature Extractor — is left unmodified. -/
theorem C6_amended_failed_run_frame (inp : DDInputs) (fs : FS) (p : Path)
    (h1 : p.head? ≠ some "dataset_diagnosis") (h2 : p.head? ≠ some "tmp_seed") :
    ((DatasetDiagnosis_runFS inp fs).1).lookup p = fs.lookup p := by
  by_cases hlt : (flatten_list inp.spatial_info_list).length < 3
  · unfold DatasetDiagnosis_runFS
    rw [if_pos hlt]
  · rw [runFS_eq inp fs hlt]
    show lookupF (applyWrites fs.files (afterSizeCheck inp).writes) p = fs.lookup p
    rw [lookupF_applyWrites]
    have hnone : lastWrite (afterSizeCheck inp).writes p = none := by
      apply lastWrite_none
      intro w hw
      rcases (goodRun_afterSizeCheck inp).1 w hw with hh | hh
      · intro hc
        rw [hc] at hh
        exact h1 hh
      · intro hc
        rw [hc] at hh
        exact h2 hh
    rw [hnone]
    rfl

theorem C6_witness :
    (["scan1_temporal_diagnosis.png"] : Path).head? ≠ some "dataset_diagnosis" ∧
    (["scan1_temporal_diagnosis.png"] : Path).head? ≠ some "tmp_seed" ∧
    ((DatasetDiagnosis_runFS ex6 exFS6).1).lookup ["scan1_temporal_diagnosis.png"] =
      exFS6.lookup ["scan1_temporal_diagnosis.png"] :=
  ⟨by decide, by decide,
    C6_amended_failed_run_frame ex6 exFS6 ["scan1_temporal_diagnosis.png"]
      (by decide) (by decide)⟩

/-! ## Claim C1: insufficient-sample cohorts raise and write nothing -/

/-- C1: for every Aggregator call whose flattened cohort has fewer than 3
scans, `DatasetDiagnosis._run_interface` raises the descriptive
insufficient-sample `ValueError` and performs no side effect: the file system
is returned unchanged, so no output file is written and the
`dataset_diagnosis` output directory is not created. -/
theorem C1_insufficient_sample_error (inp : DDInputs) (fs : FS)
    (h : (flatten_list inp.spatial_info_list).length < 3) :
    DatasetDiagnosis_runFS inp fs = (fs, some insufficientSampleMsg) := by
  unfold DatasetDiagnosis_runFS
  simp [h]

theorem C1_witness :
    (flatten_list ex1.spatial_info_list).length < 3 ∧
      DatasetDiagnosis_runFS ex1 emptyFS = (emptyFS, some insufficientSampleMsg) :=
  ⟨by decide, C1_insufficient_sample_error ex1 emptyFS (by decide)⟩

/-! ## Claim C8: the template-geometry check misses direction mismatches -/

/-- C8: the geometry check of `run_main.py:801-806` does not raise exactly when
template and mask headers disagree: on a mask sharing the template's origin but
not its direction matrix, `check_template_overlap` accepts silently. The
guard `if not a == b and c == d:` parses as `(not (a == b)) and (c == d)`,
so any direction mismatch disables the check — contradicting the function's
own error message and the spec's configuration-error taxonomy. -/
theorem C8_geometry_check_misses_direction_mismatch :
    (ex8_template.origin = ex8_mask.origin ∧
      ex8_template.direction ≠ ex8_mask.direction) ∧
      check_template_overlap ex8_template ex8_mask = .ok () := by
  refine ⟨⟨rfl, by decide⟩, rfl⟩

/-! ## Claim C9: the mask bundle has the fixed keys and hemisphere placeholders -/

/-- C9: every successful `PrepMasks` call returns a dictionary whose keys are
exactly `template_file, brain_mask, WM_mask, CSF_mask, edge_mask,
right_hem_mask, left_hem_mask, prior_maps` in the order of
`interfaces.py:67-68`, and when the `DSURQE_regions` flag is unset the two
hemisphere entries are the empty-string placeholders rather than file paths. -/
theorem C9_mask_bundle_fixed_keys (inp : PMInputs) (d : List (String × String))
    (h : PrepMasks_run inp = .ok d) :
    d.map Prod.fst = ["template_file", "brain_mask", "WM_mask", "CSF_mask",
      "edge_mask", "right_hem_mask", "left_hem_mask", "prior_maps"] ∧
    (inp.DSURQE_regions = false →
      dictGet d "right_hem_mask" = some "" ∧ dictGet d "left_hem_mask" = some "") := by
  unfold PrepMasks_run at h
  cases hm : flatten_list inp.mask_dict_list with
  | nil => rw [hm] at h; exact absurd h (by simp)
  | cons md rest =>
    rw [hm] at h
    cases hflag : inp.DSURQE_regions with
    | false =>
      rw [hflag] at h
      simp only [if_neg (by simp : ¬ (false = true))] at h
      cases h
      constructor
      · rfl
      · intro _
        constructor <;> rfl
    | true =>
      rw [hflag] at h
      simp only [if_pos rfl] at h
      cases h
      refine ⟨rfl, ?_⟩
      intro hcon
      exact absurd hcon (by decide)

theorem C9_witness :
    PrepMasks_run exW9 = .ok exW9out ∧
      (exW9out.map Prod.fst = ["template_file", "brain_mask", "WM_mask",
        "CSF_mask", "edge_mask", "right_hem_mask", "left_hem_mask", "prior_maps"] ∧
      (exW9.DSURQE_regions = false →
        dictGet exW9out "right_hem_mask" = some "" ∧
          dictGet exW9out "left_hem_mask" = some "")) :=
  ⟨by rfl, C9_mask_bundle_fixed_keys exW9 exW9out (by rfl)⟩

/-! ## Claim C7: empty index lists give a sentinel amplitude, not a crash -/

/-- C7: for every `ScanDiagnosis` call whose prior component indices are within
the weight matrix, the call returns without exception, and whenever the
signal-index or confound-index list is empty the corresponding average
amplitude feature is the defined no-data sentinel (`none`, numpy's `NaN`) at
every timepoint instead of an exception. -/
theorem C7_empty_index_amplitude_sentinel (inp : SDInputs)
    (hb : ∀ row ∈ inp.W, ∀ j ∈ inp.prior_bold_idx, j < row.length)
    (hc : ∀ row ∈ inp.W, ∀ j ∈ inp.prior_confound_idx, j < row.length) :
    ∃ ti ws, ScanDiagnosis_run inp = .ok (ti, ws) ∧
      (inp.prior_bold_idx = [] →
        ti.signal_amplitude = inp.W.map (fun _ => none)) ∧
      (inp.prior_confound_idx = [] →
        ti.confound_amplitude = inp.W.map (fun _ => none)) := by
  have hball : inp.W.all (fun row =>
      inp.prior_bold_idx.all (fun j => decide (j < row.length))) = true := by
    simp only [List.all_eq_true, decide_eq_true_eq]
    exact hb
  have hcall : inp.W.all (fun row =>
      inp.prior_confound_idx.all (fun j => decide (j < row.length))) = true := by
    simp only [List.all_eq_true, decide_eq_true_eq]
    exact hc
  unfold ScanDiagnosis_run component_amplitude
  rw [if_pos hball, if_pos hcall]
  refine ⟨_, _, rfl, ?_, ?_⟩
  · intro hempty
    simp [hempty]
  · intro hempty
    simp [hempty]

theorem C7_witness :
    (∀ row ∈ exW7.W, ∀ j ∈ exW7.prior_bold_idx, j < row.length) ∧
    (∀ row ∈ exW7.W, ∀ j ∈ exW7.prior_confound_idx, j < row.length) ∧
    ∃ ti ws, ScanDiagnosis_run exW7 = .ok (ti, ws) ∧
      (exW7.prior_bold_idx = [] →
        ti.signal_amplitude = exW7.W.map (fun _ => none)) ∧
      (exW7.prior_confound_idx = [] →
        ti.confound_amplitude = exW7.W.map (fun _ => none)) :=
  ⟨by decide, by decide,
    C7_empty_index_amplitude_sentinel exW7 (by decide) (by decide)⟩

/-! ## Claim C5: strict index order and deterministic per-prior file names -/

theorem qcLoop_writes_take (stacked : List (List Vec)) (priors : List Vec)
    (std_maps VE_maps : List Vec) (tdof_list : List Int) (fam : String) :
    ∀ (idxs : List Nat) (r : RunOut), ∃ j,
      (qcLoop stacked priors std_maps VE_maps tdof_list fam idxs r).writes.map Prod.fst =
        r.writes.map Prod.fst ++
          ((idxs.take j).map (fun i => [figPath fam i, csvPath fam i])).flatten := by
  intro idxs
  induction idxs with
  | nil => intro r; exact ⟨0, by simp [qcLoop]⟩
  | cons i rest ih =>
    intro r
    unfold qcLoop
    by_cases he : r.err.isSome = true
    · rw [if_pos he]
      exact ⟨0, by simp⟩
    · rw [if_neg he]
      cases hsl : sliceMid stacked i with
      | error e => exact ⟨0, by simp⟩
      | ok FC =>
        dsimp only
        cases hqc : analysis_QC FC (priors.getD i []) std_maps VE_maps tdof_list
            (figPath fam i) with
        | error e => exact ⟨0, by simp⟩
        | ok sw =>
          obtain ⟨stats, figw⟩ := sw
          dsimp only
          obtain ⟨j, hj⟩ :=
            ih { r with writes := r.writes ++ [figw, (csvPath fam i, csvOfStats stats)] }
          refine ⟨j + 1, ?_⟩
          rw [hj]
          have hfw : figw.1 = figPath fam i :=
            analysis_QC_fig _ _ _ _ _ _ _ _ hqc
          simp [List.take_succ_cons, hfw]

/-- C5: the per-prior output mechanism of `DatasetDiagnosis._run_interface`
(the loop `qcLoop`, which the run invokes with `List.range num_priors` for each
of the three feature families, `interfaces.py:235-268`) processes prior
components strictly in index order `0..N-1` matching the prior-map stack's row
order: whatever the run state, the file names it emits are exactly an initial
index segment of `fam ++ i ++ "_QC_maps.png"`, `fam ++ i ++ "_QC_stats.csv"`
inside the `dataset_diagnosis` directory — a deterministic function of the
family and the index. -/
theorem C5_index_order_and_deterministic_names (stacked : List (List Vec))
    (priors : List Vec) (std_maps VE_maps : List Vec) (tdof_list : List Int)
    (fam : String) (N : Nat) (r : RunOut) :
    ∃ j, (qcLoop stacked priors std_maps VE_maps tdof_list fam (List.range N) r).writes.map Prod.fst =
      r.writes.map Prod.fst ++
        (((List.range N).take j).map (fun i =>
          [ddPath (fam ++ toString i ++ "_QC_maps.png"),
           ddPath (fam ++ toString i ++ "_QC_stats.csv")])).flatten :=
  qcLoop_writes_take stacked priors std_maps VE_maps tdof_list fam (List.range N) r

/-! ## Claim C10: validation counts only the spatial list; zip truncates -/

theorem zip_getElem_some : ∀ (a : List α) (b : List β) (k : Nat) (x : α) (y : β),
    a[k]? = some x → b[k]? = some y → (a.zip b)[k]? = some (x, y) := by
  intro a
  induction a with
  | nil =>
    intro b k x y hx hy
    simp at hx
  | cons u us ih =>
    intro b k x y hx hy
    cases b with
    | nil => simp at hy
    | cons v vs =>
      cases k with
      | zero =>
        simp only [List.getElem?_cons_zero, Option.some_inj] at hx hy
        simp [List.zip_cons_cons, hx, hy]
      | succ k2 =>
        simp only [List.getElem?_cons_succ] at hx hy
        simp only [List.zip_cons_cons, List.getElem?_cons_succ]
        exact ih vs k2 x y hx hy

/-- C10: the Aggregator's sample-size validation counts only the flattened
spatial-info list — the insufficient-sample error is raised exactly when that
list has fewer than 3 entries, whatever the lengths of the other two lists;
no length-mismatch error exists, and the scan loop consumes the Python `zip`
of the three lists, so exactly the first `min`-length scans contribute. On the
concrete cohort `ex10` (3 spatial records, 3 analysis records, but only 2 file
dictionaries) the run completes without any error with 2 contributing scans. -/
theorem C10_validation_counts_spatial_only (inp : DDInputs) :
    ((DatasetDiagnosis_runWrites inp).err = some insufficientSampleMsg ↔
      (flatten_list inp.spatial_info_list).length < 3) ∧
    (zippedScans inp).length =
      min (flatten_list inp.spatial_info_list).length
        (min (flatten_list inp.analysis_dict_list).length
          (flatten_list inp.file_dict_list).length) ∧
    (∀ (k : Nat) (s : SpatialInfo) (a : AnalysisDict) (f : FileDict),
      (flatten_list inp.spatial_info_list)[k]? = some s →
      (flatten_list inp.analysis_dict_list)[k]? = some a →
      (flatten_list inp.file_dict_list)[k]? = some f →
      (zippedScans inp)[k]? = some (s, a, f)) ∧
    ((DatasetDiagnosis_runWrites ex10).err = none ∧ (zippedScans ex10).length = 2) := by
  refine ⟨⟨?_, ?_⟩, ?_, ?_, by decide, by decide⟩
  · intro h
    by_contra hlt
    unfold DatasetDiagnosis_runWrites at h
    rw [if_neg hlt] at h
    exact (goodRun_afterSizeCheck inp).2 h
  · intro hlt
    unfold DatasetDiagnosis_runWrites
    rw [if_pos hlt]
  · show (zip3 _ _ _).length = _
    unfold zip3
    rw [List.length_zip, List.length_zip]
  · intro k s a f hs ha hf
    exact zip_getElem_some _ _ k _ _ hs (zip_getElem_some _ _ k _ _ ha hf)

theorem C10_witness :
    ((DatasetDiagnosis_runWrites ex10).err = some insufficientSampleMsg ↔
      (flatten_list ex10.spatial_info_list).length < 3) ∧
    (zippedScans ex10).length =
      min (flatten_list ex10.spatial_info_list).length
        (min (flatten_list ex10.analysis_dict_list).length
          (flatten_list ex10.file_dict_list).length) ∧
    (∀ (k : Nat) (s : SpatialInfo) (a : AnalysisDict) (f : FileDict),
      (flatten_list ex10.spatial_info_list)[k]? = some s →
      (flatten_list ex10.analysis_dict_list)[k]? = some a →
      (flatten_list ex10.file_dict_list)[k]? = some f →
      (zippedScans ex10)[k]? = some (s, a, f)) ∧
    ((DatasetDiagnosis_runWrites ex10).err = none ∧ (zippedScans ex10).length = 2) :=
  C10_validation_counts_spatial_only ex10

/-! ## Claim C3: which length inconsistencies actually fail -/

/-- C3 counterexample: on the `ex3` cohort the per-scan spatial feature vectors
do not all have identical voxel-index length — the first scan's prior-map row
has length 2 while every other spatial vector has length 1 — yet the
Aggregator raises no error and produces its outputs: `interfaces.py:233` reads
`prior_maps` only from the leaked loop variable of the last scan, and the
prior-map vectors of the other scans are never read, so their inconsistent
lengths go undetected. -/
theorem C3_counterexample :
    allEqualLens (allSpatialVecLens ex3) = false ∧
    (DatasetDiagnosis_runWrites ex3).err = none ∧
    (DatasetDiagnosis_runWrites ex3).writes.map Prod.fst =
      [ddPath "spatial_crosscorrelations.png", figPath "DR" 0, csvPath "DR" 0] := by
  refine ⟨by decide, by decide, by decide⟩

/-- C3 amended: whenever a vector of the feature families the aggregation
actually consumes for stacking — temporal-std, variance-explained,
dual-regression or dual-ICA — does not have the mask-defined voxel count, the
Aggregator (on a cohort passing the sample-size check) fails with the
shape-mismatch error before writing any output file: inconsistent-length
vectors are never truncated or padded. (Prior-map vectors of scans other than
the last are never read, so their inconsistency is not detected — see the
counterexample.) -/
theorem C3_amended_inconsistent_vectors_fail (inp : DDInputs)
    (h3 : ¬ (flatten_list inp.spatial_info_list).length < 3)
    (hbad : coreVecsConsistent (countTrue inp.mask_file_dict.brain_mask)
      (flatten_list inp.spatial_info_list) = false) :
    (DatasetDiagnosis_runWrites inp).err = some shapeMismatchMsg ∧
    (DatasetDiagnosis_runWrites inp).writes = [] := by
  unfold DatasetDiagnosis_runWrites
  rw [if_neg h3]
  unfold afterSizeCheck
  dsimp only
  have hcc : spatial_crosscorrelations (flatten_list inp.spatial_info_list)
      (otsu_scaling inp.mask_file_dict.template_file)
      (countTrue inp.mask_file_dict.brain_mask)
      (ddPath "spatial_crosscorrelations.png") = .error shapeMismatchMsg := by
    unfold spatial_crosscorrelations
    rw [hbad]
    rfl
  rw [hcc]
  exact ⟨rfl, rfl⟩

theorem C3_witness :
    (¬ (flatten_list exW3.spatial_info_list).length < 3) ∧
    coreVecsConsistent (countTrue exW3.mask_file_dict.brain_mask)
      (flatten_list exW3.spatial_info_list) = false ∧
    ((DatasetDiagnosis_runWrites exW3).err = some shapeMismatchMsg ∧
      (DatasetDiagnosis_runWrites exW3).writes = []) :=
  ⟨by decide, by decide,
    C3_amended_inconsistent_vectors_fail exW3 (by decide) (by decide)⟩

/-! ## Success lemmas for the pipeline stages -/

theorem maskSelect_length : ∀ (bs : List Bool) (xs : List Int),
    bs.length = xs.length → (maskSelect bs xs).length = countTrue bs := by
  intro bs
  induction bs with
  | nil => intro xs h; rfl
  | cons b bs2 ih =>
    intro xs h
    cases xs with
    | nil => simp at h
    | cons x xs2 =>
      have h2 : bs2.length = xs2.length := by simpa using h
      cases b with
      | false => simpa [maskSelect, countTrue, List.filter_cons] using ih xs2 h2
      | true => simpa [maskSelect, countTrue, List.filter_cons] using ih xs2 h2

theorem maskedResample_length (vi : List Bool) (img : Vec) :
    (maskedResample vi img).length = countTrue vi := by
  unfold maskedResample
  apply maskSelect_length
  unfold resampleToGrid
  rw [List.length_map, List.length_range]

theorem getD_length_eq (l : List Vec) (i : Nat) (v : Nat)
    (hi : i < l.length) (hall : ∀ r ∈ l, r.length = v) :
    (l.getD i []).length = v := by
  rw [List.getD_eq_getElem l [] hi]
  exact hall _ (List.getElem_mem hi)

theorem crosscorr_ok (infos : List SpatialInfo) (scaled : Vec) (v : Nat)
    (figp : Path) (h : coreVecsConsistent v infos = true) :
    spatial_crosscorrelations infos scaled v figp =
      .ok (figp, "crosscorr_fig " ++
        toString (sumInt (infos.map (fun s => sumInt s.temporal_std)) +
          sumInt scaled)) := by
  unfold spatial_crosscorrelations
  rw [h]
  rfl

theorem exMapM_ok (f : α → Except String β) (g : α → β) (l : List α)
    (h : ∀ x ∈ l, f x = .ok (g x)) : exMapM f l = .ok (l.map g) := by
  induction l with
  | nil => rfl
  | cons x xs ih =>
    unfold exMapM
    rw [h x (by simp), ih (fun z hz => h z (by simp [hz]))]
    rfl

theorem maskExtract_ok (vi : List Bool) (img : Vec) (h : img.length = vi.length) :
    maskExtract vi img = .ok (maskSelect vi img) := by
  unfold maskExtract
  rw [if_pos (beq_iff_eq.mpr h)]

theorem npStack2_ok (rows : List Vec) (v : Nat) (h : ∀ r ∈ rows, r.length = v) :
    npStack2 rows = .ok rows := by
  cases rows with
  | nil => rfl
  | cons r rs =>
    unfold npStack2
    dsimp only
    have hall : rs.all (fun x => x.length == r.length) = true := by
      rw [List.all_eq_true]
      intro x hx
      rw [beq_iff_eq, h x (by simp [hx]), h r (by simp)]
    rw [hall]
    rfl

theorem npStack3_ok (xs : List (List Vec)) (c v : Nat)
    (hc : ∀ m ∈ xs, m.length = c) (hv : ∀ m ∈ xs, ∀ r ∈ m, r.length = v) :
    npStack3 xs = .ok xs := by
  cases xs with
  | nil => rfl
  | cons m ms =>
    unfold npStack3
    have h1 : ms.all (fun m2 => m2.length == m.length) = true := by
      rw [List.all_eq_true]
      intro m2 hm2
      rw [beq_iff_eq, hc m2 (by simp [hm2]), hc m (by simp)]
    have h2 : (m :: ms).all (fun m2 => m2.all (fun r => r.length == headLen m)) = true := by
      rw [List.all_eq_true]
      intro m2 hm2
      rw [List.all_eq_true]
      intro r hr
      rw [beq_iff_eq, hv m2 hm2 r hr]
      cases hm : m with
      | nil =>
        exfalso
        have hce : c = 0 := by rw [← hc m (by simp), hm]; rfl
        have hm2len : m2.length = 0 := by rw [hc m2 hm2, hce]
        rw [List.length_eq_zero] at hm2len
        rw [hm2len] at hr
        simp at hr
      | cons r0 mrest =>
        show v = r0.length
        have hr0 : r0 ∈ m := by rw [hm]; simp
        rw [hv m (by simp) r0 hr0]
    dsimp only
    rw [h1, h2]
    rfl

theorem sliceMid_ok (m : List (List Vec)) (i : Nat)
    (h : ∀ row ∈ m, i < row.length) :
    sliceMid m i = .ok (m.map (fun row => row.getD i [])) := by
  unfold sliceMid
  have hall : m.all (fun row => decide (i < row.length)) = true := by
    rw [List.all_eq_true]
    intro row hr
    rw [decide_eq_true_eq]
    exact h row hr
  rw [hall]
  rfl

theorem analysis_QC_ok (FC_maps : List Vec) (prior : Vec)
    (std_maps VE_maps : List Vec) (tdof_list : List Int) (figp : Path)
    (hFC : ∀ r ∈ FC_maps, r.length = prior.length)
    (hstd : ∀ r ∈ std_maps, r.length = prior.length)
    (hVE : ∀ r ∈ VE_maps, r.length = prior.length) :
    ∃ s, analysis_QC FC_maps prior std_maps VE_maps tdof_list figp =
      .ok (s, (figp, "QC_fig " ++ csvOfStats s)) := by
  unfold analysis_QC
  have hcond : ((FC_maps.all (fun r => r.length == prior.length)) &&
      (std_maps.all (fun r => r.length == prior.length)) &&
      (VE_maps.all (fun r => r.length == prior.length))) = true := by
    simp only [Bool.and_eq_true, List.all_eq_true, beq_iff_eq]
    exact ⟨⟨hFC, hstd⟩, hVE⟩
  rw [hcond]
  exact ⟨_, rfl⟩

theorem qcLoop_ok (stacked : List (List Vec)) (priors : List Vec)
    (std_maps VE_maps : List Vec) (tdof_list : List Int) (fam : String) (v : Nat)
    (hrow : ∀ m ∈ stacked, ∀ x ∈ m, x.length = v)
    (hstd : ∀ x ∈ std_maps, x.length = v) (hVE : ∀ x ∈ VE_maps, x.length = v) :
    ∀ (idxs : List Nat) (r : RunOut), r.err = none →
      (∀ i ∈ idxs, (∀ m ∈ stacked, i < m.length) ∧ (priors.getD i []).length = v) →
      (qcLoop stacked priors std_maps VE_maps tdof_list fam idxs r).err = none ∧
      (qcLoop stacked priors std_maps VE_maps tdof_list fam idxs r).writes.map Prod.fst =
        r.writes.map Prod.fst ++
          (idxs.map (fun i => [figPath fam i, csvPath fam i])).flatten := by
  intro idxs
  induction idxs with
  | nil => intro r hr _; exact ⟨hr, by simp [qcLoop]⟩
  | cons i rest ih =>
    intro r hr hidx
    unfold qcLoop
    rw [if_neg (by rw [hr]; simp)]
    rw [sliceMid_ok stacked i (hidx i (by simp)).1]
    dsimp only
    have hprl : (priors.getD i []).length = v := (hidx i (by simp)).2
    have hFC : ∀ x ∈ stacked.map (fun row => row.getD i []),
        x.length = (priors.getD i []).length := by
      intro x hx
      obtain ⟨m, hm, hxe⟩ := List.mem_map.mp hx
      rw [← hxe, hprl]
      exact getD_length_eq m i v ((hidx i (by simp)).1 m hm) (hrow m hm)
    have hstd2 : ∀ x ∈ std_maps, x.length = (priors.getD i []).length := by
      intro x hx
      rw [hprl]
      exact hstd x hx
    have hVE2 : ∀ x ∈ VE_maps, x.length = (priors.getD i []).length := by
      intro x hx
      rw [hprl]
      exact hVE x hx
    obtain ⟨s, hqc⟩ := analysis_QC_ok _ _ _ _ tdof_list (figPath fam i) hFC hstd2 hVE2
    rw [hqc]
    dsimp only
    obtain ⟨h1, h2⟩ := ih
      { r with writes := r.writes ++
          [(figPath fam i, "QC_fig " ++ csvOfStats s), (csvPath fam i, csvOfStats s)] }
      hr (fun i2 hi2 => hidx i2 (by simp [hi2]))
    refine ⟨h1, ?_⟩
    rw [h2]
    simp

theorem shape1_map_eq (l : List α) (f : α → List Vec) (C : Nat)
    (hne : l ≠ []) (hall : ∀ t ∈ l, (f t).length = C) : shape1 (l.map f) = C := by
  cases l with
  | nil => exact absurd rfl hne
  | cons t rest => exact hall t (by simp)

theorem seedStage_ok (spm : List Vec) (vi : List Bool) (sml : List (List Vec))
    (std_maps VE_maps : List Vec) (tdof_list : List Int) (r : RunOut) (K : Nat)
    (hr : r.err = none)
    (hstd : ∀ x ∈ std_maps, x.length = countTrue vi)
    (hVE : ∀ x ∈ VE_maps, x.length = countTrue vi)
    (hK : ∀ row ∈ sml, row.length = K)
    (hrowv : ∀ row ∈ sml, ∀ x ∈ row, x.length = countTrue vi)
    (hSK : 0 < spm.length → spm.length ≤ K) :
    (seedStage spm vi sml std_maps VE_maps tdof_list r).err = none ∧
    (seedStage spm vi sml std_maps VE_maps tdof_list r).writes.map Prod.fst =
      r.writes.map Prod.fst ++
        (if 0 < spm.length then
          List.replicate spm.length tmpImgPath ++
            ((List.range spm.length).map (fun i =>
              [figPath "seed_FC" i, csvPath "seed_FC" i])).flatten
         else []) := by
  unfold seedStage
  by_cases hs : spm.length > 0
  · rw [if_pos hs]
    unfold step
    rw [if_neg (by rw [hr]; simp)]
    dsimp only
    rw [npStack3_ok sml K (countTrue vi) hK hrowv]
    dsimp only
    have hpr : ∀ i ∈ List.range spm.length,
        (∀ m ∈ sml, i < m.length) ∧
        (((spm.map (maskedResample vi)).getD i []).length = countTrue vi) := by
      intro i hi
      rw [List.mem_range] at hi
      refine ⟨?_, ?_⟩
      · intro m hm
        rw [hK m hm]
        exact lt_of_lt_of_le hi (hSK hs)
      · have hlen : i < (spm.map (maskedResample vi)).length := by
          rw [List.length_map]
          exact hi
        apply getD_length_eq _ _ _ hlen
        intro x hx
        obtain ⟨img, _, hxe⟩ := List.mem_map.mp hx
        rw [← hxe]
        exact maskedResample_length vi img
    obtain ⟨h1, h2⟩ := qcLoop_ok sml (spm.map (maskedResample vi)) std_maps VE_maps
      tdof_list "seed_FC" (countTrue vi) hrowv hstd hVE (List.range spm.length)
      { r with writes := r.writes ++ spm.map (fun img =>
          (tmpImgPath, imgContent (resampleToGrid vi.length img))) }
      hr hpr
    refine ⟨h1, ?_⟩
    rw [h2]
    rw [if_pos hs]
    simp only [List.map_append, List.map_map, List.append_assoc]
    congr 1
    congr 1
    show spm.map (fun _ => tmpImgPath) = List.replicate spm.length tmpImgPath
    exact List.map_const' spm tmpImgPath
  · rw [if_neg hs]
    refine ⟨hr, ?_⟩
    rw [if_neg hs]
    simp

/-! ## Claim C2: outputs of a successful aggregation, per family -/

/-- C2 counterexample: the `ex2` cohort satisfies the claim's hypotheses —
three scans, every spatial vector of the mask-defined voxel length — but each
scan carries one dual-regression component against two prior-map rows, so the
run raises `IndexError` at prior index 1 (`DR_maps_list[:, 1, :]`,
`interfaces.py:236`) and never produces the `DR1` statistics row the claim
promises. -/
theorem C2_counterexample :
    3 ≤ (flatten_list ex2.spatial_info_list).length ∧
    spatialConsistent ex2 = true ∧
    (DatasetDiagnosis_runWrites ex2).err = some idxErrMsg ∧
    csvPath "DR" 1 ∉ (DatasetDiagnosis_runWrites ex2).writes.map Prod.fst := by
  refine ⟨by decide, by decide, by decide, by decide⟩

/-- C2 amended: for every cohort with at least 3 scans, aligned input lists,
every spatial vector of the mask-defined voxel length, and component counts
consistent with the prior stack — each scan has exactly `N = num_priors`
dual-regression components and a common dual-ICA count `C` that is zero or at
least `N`, and each scan supplies a common number `K ≥ S` of seed maps on the
mask grid — the Aggregator succeeds and writes exactly one figure and one
statistics CSV per prior index for the DR family always, for the dual-ICA
family iff the scans' dual-ICA component count is nonzero, and for the seed-FC
family iff seed prior maps are supplied (their absence is not an error), in
strict index order. -/
theorem C2_amended_success_outputs (inp : DDInputs) (N C K : Nat)
    (hsp3 : 3 ≤ (flatten_list inp.spatial_info_list).length)
    (han : (flatten_list inp.analysis_dict_list).length =
      (flatten_list inp.spatial_info_list).length)
    (hfd : (flatten_list inp.file_dict_list).length =
      (flatten_list inp.spatial_info_list).length)
    (hvec : ∀ s ∈ flatten_list inp.spatial_info_list,
      s.temporal_std.length = countTrue inp.mask_file_dict.brain_mask ∧
      s.VE_spatial.length = countTrue inp.mask_file_dict.brain_mask ∧
      (∀ r ∈ s.DR_BOLD, r.length = countTrue inp.mask_file_dict.brain_mask) ∧
      (∀ r ∈ s.dual_ICA_maps, r.length = countTrue inp.mask_file_dict.brain_mask) ∧
      (∀ r ∈ s.prior_maps, r.length = countTrue inp.mask_file_dict.brain_mask))
    (hDR : ∀ s ∈ flatten_list inp.spatial_info_list, s.DR_BOLD.length = N)
    (hpri : ∀ s ∈ flatten_list inp.spatial_info_list, s.prior_maps.length = N)
    (hICA : ∀ s ∈ flatten_list inp.spatial_info_list, s.dual_ICA_maps.length = C)
    (hC : C = 0 ∨ N ≤ C)
    (hseedK : ∀ a ∈ flatten_list inp.analysis_dict_list, a.seed_map_files.length = K)
    (hgrid : ∀ a ∈ flatten_list inp.analysis_dict_list,
      ∀ img ∈ a.seed_map_files, img.length = inp.mask_file_dict.brain_mask.length)
    (hSK : 0 < inp.seed_prior_maps.length → inp.seed_prior_maps.length ≤ K) :
    (DatasetDiagnosis_runWrites inp).err = none ∧
    (DatasetDiagnosis_runWrites inp).writes.map Prod.fst =
      expectedQCPaths N C inp.seed_prior_maps.length := by
  have hzmem : ∀ t ∈ zippedScans inp,
      t.1 ∈ flatten_list inp.spatial_info_list ∧
      t.2.1 ∈ flatten_list inp.analysis_dict_list ∧
      t.2.2 ∈ flatten_list inp.file_dict_list := by
    intro t ht
    have ht2 : (t.1, t.2) ∈ (flatten_list inp.spatial_info_list).zip
        ((flatten_list inp.analysis_dict_list).zip (flatten_list inp.file_dict_list)) := ht
    obtain ⟨ha, hb⟩ := List.of_mem_zip ht2
    have hb2 : (t.2.1, t.2.2) ∈ (flatten_list inp.analysis_dict_list).zip
        (flatten_list inp.file_dict_list) := hb
    obtain ⟨hb3, hb4⟩ := List.of_mem_zip hb2
    exact ⟨ha, hb3, hb4⟩
  have hzlen : (zippedScans inp).length = (flatten_list inp.spatial_info_list).length := by
    show ((flatten_list inp.spatial_info_list).zip
      ((flatten_list inp.analysis_dict_list).zip (flatten_list inp.file_dict_list))).length = _
    rw [List.length_zip, List.length_zip, han, hfd]
    simp
  have hne : zippedScans inp ≠ [] := by
    intro h0
    rw [h0] at hzlen
    simp at hzlen
    omega
  have htl : (zippedScans inp).getLast hne ∈ zippedScans inp := List.getLast_mem hne
  have hcore : coreVecsConsistent (countTrue inp.mask_file_dict.brain_mask)
      (flatten_list inp.spatial_info_list) = true := by
    unfold coreVecsConsistent
    rw [List.all_eq_true]
    intro s hs
    obtain ⟨h1, h2, h3, h4, _⟩ := hvec s hs
    simp only [Bool.and_eq_true, List.all_eq_true, beq_iff_eq]
    exact ⟨⟨⟨h1, h2⟩, h3⟩, h4⟩
  have hloadf : ∀ t ∈ zippedScans inp,
      exMapM (maskExtract inp.mask_file_dict.brain_mask) t.2.1.seed_map_files =
        .ok (t.2.1.seed_map_files.map (maskSelect inp.mask_file_dict.brain_mask)) := by
    intro t ht
    apply exMapM_ok
    intro img himg
    exact maskExtract_ok _ _ (hgrid t.2.1 (hzmem t ht).2.1 img himg)
  have hstdrows : ∀ x ∈ (zippedScans inp).map (fun t => t.1.temporal_std),
      x.length = countTrue inp.mask_file_dict.brain_mask := by
    intro x hx
    obtain ⟨t, ht, hxe⟩ := List.mem_map.mp hx
    rw [← hxe]
    exact (hvec t.1 (hzmem t ht).1).1
  have hVErows : ∀ x ∈ (zippedScans inp).map (fun t => t.1.VE_spatial),
      x.length = countTrue inp.mask_file_dict.brain_mask := by
    intro x hx
    obtain ⟨t, ht, hxe⟩ := List.mem_map.mp hx
    rw [← hxe]
    exact (hvec t.1 (hzmem t ht).1).2.1
  have hDRc : ∀ m ∈ (zippedScans inp).map (fun t => t.1.DR_BOLD), m.length = N := by
    intro m hm
    obtain ⟨t, ht, hme⟩ := List.mem_map.mp hm
    rw [← hme]
    exact hDR t.1 (hzmem t ht).1
  have hDRv : ∀ m ∈ (zippedScans inp).map (fun t => t.1.DR_BOLD),
      ∀ x ∈ m, x.length = countTrue inp.mask_file_dict.brain_mask := by
    intro m hm
    obtain ⟨t, ht, hme⟩ := List.mem_map.mp hm
    rw [← hme]
    exact (hvec t.1 (hzmem t ht).1).2.2.1
  have hICAc : ∀ m ∈ (zippedScans inp).map (fun t => t.1.dual_ICA_maps), m.length = C := by
    intro m hm
    obtain ⟨t, ht, hme⟩ := List.mem_map.mp hm
    rw [← hme]
    exact hICA t.1 (hzmem t ht).1
  have hICAv : ∀ m ∈ (zippedScans inp).map (fun t => t.1.dual_ICA_maps),
      ∀ x ∈ m, x.length = countTrue inp.mask_file_dict.brain_mask := by
    intro m hm
    obtain ⟨t, ht, hme⟩ := List.mem_map.mp hm
    rw [← hme]
    exact (hvec t.1 (hzmem t ht).1).2.2.2.1
  have hsmlK : ∀ row ∈ (zippedScans inp).map (fun t =>
      t.2.1.seed_map_files.map (maskSelect inp.mask_file_dict.brain_mask)),
      row.length = K := by
    intro row hrow
    obtain ⟨t, ht, hre⟩ := List.mem_map.mp hrow
    rw [← hre, List.length_map]
    exact hseedK t.2.1 (hzmem t ht).2.1
  have hsmlv : ∀ row ∈ (zippedScans inp).map (fun t =>
      t.2.1.seed_map_files.map (maskSelect inp.mask_file_dict.brain_mask)),
      ∀ x ∈ row, x.length = countTrue inp.mask_file_dict.brain_mask := by
    intro row hrow x hx
    obtain ⟨t, ht, hre⟩ := List.mem_map.mp hrow
    rw [← hre] at hx
    obtain ⟨img, himg, hxe⟩ := List.mem_map.mp hx
    rw [← hxe]
    exact maskSelect_length _ _ (hgrid t.2.1 (hzmem t ht).2.1 img himg).symm
  have hN : ((zippedScans inp).getLast hne).1.prior_maps.length = N :=
    hpri _ (hzmem _ htl).1
  have hidxDR : ∀ i ∈ List.range N,
      (∀ m ∈ (zippedScans inp).map (fun t => t.1.DR_BOLD), i < m.length) ∧
      ((((zippedScans inp).getLast hne).1.prior_maps).getD i []).length =
        countTrue inp.mask_file_dict.brain_mask := by
    intro i hi
    rw [List.mem_range] at hi
    refine ⟨?_, ?_⟩
    · intro m hm
      rw [hDRc m hm]
      exact hi
    · apply getD_length_eq _ _ _ (by rw [hN]; exact hi)
      exact (hvec _ (hzmem _ htl).1).2.2.2.2
  unfold DatasetDiagnosis_runWrites
  rw [if_neg (Nat.not_lt.mpr hsp3)]
  unfold afterSizeCheck
  dsimp only
  rw [crosscorr_ok _ _ _ _ hcore]
  dsimp only
  rw [exMapM_ok _ (fun t =>
    t.2.1.seed_map_files.map (maskSelect inp.mask_file_dict.brain_mask)) _ hloadf]
  dsimp only
  rw [npStack2_ok _ (countTrue inp.mask_file_dict.brain_mask) hstdrows]
  dsimp only
  rw [npStack2_ok _ (countTrue inp.mask_file_dict.brain_mask) hVErows]
  dsimp only
  rw [npStack3_ok _ N (countTrue inp.mask_file_dict.brain_mask) hDRc hDRv]
  dsimp only
  rw [npStack3_ok _ C (countTrue inp.mask_file_dict.brain_mask) hICAc hICAv]
  dsimp only
  rw [List.getLast?_eq_getLast_of_ne_nil hne]
  dsimp only
  rw [hN]
  rw [shape1_map_eq (zippedScans inp) (fun t => t.1.dual_ICA_maps) C hne
    (fun t ht => hICA t.1 (hzmem t ht).1)]
  set r0 : RunOut :=
    { writes := [(ddPath "spatial_crosscorrelations.png",
        "crosscorr_fig " ++ toString (sumInt ((flatten_list inp.spatial_info_list).map
          (fun s => sumInt s.temporal_std)) +
          sumInt (otsu_scaling inp.mask_file_dict.template_file)))],
      err := none } with hr0
  obtain ⟨hDRerr, hDRw⟩ := qcLoop_ok
    ((zippedScans inp).map (fun t => t.1.DR_BOLD))
    ((zippedScans inp).getLast hne).1.prior_maps
    ((zippedScans inp).map (fun t => t.1.temporal_std))
    ((zippedScans inp).map (fun t => t.1.VE_spatial))
    ((zippedScans inp).map (fun t => t.2.2.CR_data_dict.tDOF)) "DR"
    (countTrue inp.mask_file_dict.brain_mask) hDRv hstdrows hVErows
    (List.range N) r0 (by rw [hr0]) hidxDR
  by_cases hC0 : 0 < C
  · rw [if_pos hC0]
    have hNC : N ≤ C := by
      rcases hC with h | h
      · omega
      · exact h
    have hidxD : ∀ i ∈ List.range N,
        (∀ m ∈ (zippedScans inp).map (fun t => t.1.dual_ICA_maps), i < m.length) ∧
        ((((zippedScans inp).getLast hne).1.prior_maps).getD i []).length =
          countTrue inp.mask_file_dict.brain_mask := by
      intro i hi
      refine ⟨?_, (hidxDR i hi).2⟩
      rw [List.mem_range] at hi
      intro m hm
      rw [hICAc m hm]
      omega
    obtain ⟨hDerr, hDw⟩ := qcLoop_ok
      ((zippedScans inp).map (fun t => t.1.dual_ICA_maps))
      ((zippedScans inp).getLast hne).1.prior_maps
      ((zippedScans inp).map (fun t => t.1.temporal_std))
      ((zippedScans inp).map (fun t => t.1.VE_spatial))
      ((zippedScans inp).map (fun t => t.2.2.CR_data_dict.tDOF)) "dual_ICA"
      (countTrue inp.mask_file_dict.brain_mask) hICAv hstdrows hVErows
      (List.range N)
      (qcLoop ((zippedScans inp).map (fun t => t.1.DR_BOLD))
        ((zippedScans inp).getLast hne).1.prior_maps
        ((zippedScans inp).map (fun t => t.1.temporal_std))
        ((zippedScans inp).map (fun t => t.1.VE_spatial))
        ((zippedScans inp).map (fun t => t.2.2.CR_data_dict.tDOF)) "DR"
        (List.range N) r0) hDRerr hidxD
    obtain ⟨hSerr, hSw⟩ := seedStage_ok inp.seed_prior_maps
      inp.mask_file_dict.brain_mask
      ((zippedScans inp).map (fun t =>
        t.2.1.seed_map_files.map (maskSelect inp.mask_file_dict.brain_mask)))
      ((zippedScans inp).map (fun t => t.1.temporal_std))
      ((zippedScans inp).map (fun t => t.1.VE_spatial))
      ((zippedScans inp).map (fun t => t.2.2.CR_data_dict.tDOF))
      (qcLoop ((zippedScans inp).map (fun t => t.1.dual_ICA_maps))
        ((zippedScans inp).getLast hne).1.prior_maps
        ((zippedScans inp).map (fun t => t.1.temporal_std))
        ((zippedScans inp).map (fun t => t.1.VE_spatial))
        ((zippedScans inp).map (fun t => t.2.2.CR_data_dict.tDOF)) "dual_ICA"
        (List.range N)
        (qcLoop ((zippedScans inp).map (fun t => t.1.DR_BOLD))
          ((zippedScans inp).getLast hne).1.prior_maps
          ((zippedScans inp).map (fun t => t.1.temporal_std))
          ((zippedScans inp).map (fun t => t.1.VE_spatial))
          ((zippedScans inp).map (fun t => t.2.2.CR_data_dict.tDOF)) "DR"
          (List.range N) r0))
      K hDerr hstdrows hVErows hsmlK hsmlv hSK
    refine ⟨hSerr, ?_⟩
    rw [hSw, hDw, hDRw, hr0]
    simp [expectedQCPaths, if_pos hC0, List.append_assoc]
  · rw [if_neg hC0]
    obtain ⟨hSerr, hSw⟩ := seedStage_ok inp.seed_prior_maps
      inp.mask_file_dict.brain_mask
      ((zippedScans inp).map (fun t =>
        t.2.1.seed_map_files.map (maskSelect inp.mask_file_dict.brain_mask)))
      ((zippedScans inp).map (fun t => t.1.temporal_std))
      ((zippedScans inp).map (fun t => t.1.VE_spatial))
      ((zippedScans inp).map (fun t => t.2.2.CR_data_dict.tDOF))
      (qcLoop ((zippedScans inp).map (fun t => t.1.DR_BOLD))
        ((zippedScans inp).getLast hne).1.prior_maps
        ((zippedScans inp).map (fun t => t.1.temporal_std))
        ((zippedScans inp).map (fun t => t.1.VE_spatial))
        ((zippedScans inp).map (fun t => t.2.2.CR_data_dict.tDOF)) "DR"
        (List.range N) r0)
      K hDRerr hstdrows hVErows hsmlK hsmlv hSK
    refine ⟨hSerr, ?_⟩
    rw [hSw, hDRw, hr0]
    simp [expectedQCPaths, if_neg hC0, List.append_assoc]

theorem C2_witness :
    3 ≤ (flatten_list exOK.spatial_info_list).length ∧
    ((DatasetDiagnosis_runWrites exOK).err = none ∧
      (DatasetDiagnosis_runWrites exOK).writes.map Prod.fst =
        expectedQCPaths 1 0 exOK.seed_prior_maps.length) :=
  ⟨by decide,
    C2_amended_success_outputs exOK 1 0 0 (by decide) (by decide) (by decide)
      (by decide) (by decide) (by decide) (by decide) (Or.inl rfl) (by decide)
      (by decide) (by decide)⟩

end Rabies
